import Mathlib

/-!
# DashboardAdmin: aggregation, filtering and loading

A shallow embedding of the logic of `frontend/src/pages/DashboardAdmin.jsx`:
the statistics computed by `computedStats`, the date bucket `filterByDate`,
the four filtered views, the loaders run by `loadAllData`, the mutation
handlers, the notification slot, the tab buttons and the status labels.

Conventions of the embedding.
* A string or number property of a JSON object that may be missing is an
  `Option`; `none` stands for `undefined`/`null`. The `createdAt` and `uid`
  properties are `JsValue`s, which keep `undefined` and `null` apart.
* A number of a JSON response is given by the rational it denotes; reading it
  and adding numbers follow IEEE 754 double arithmetic (`toNumber`, `jsAdd`),
  with a finite double given by its exact value.
* A `Date` is its time value, an integer number of milliseconds since the
  epoch, or `none` for an Invalid Date (time value `NaN`).
* Local time is UTC shifted by a fixed offset (no daylight-saving change).
* Asynchronous code is run to completion: a handler's state is the one reached
  once the handler and the reload it started have settled; a timer fires
  exactly at its due time.
-/

set_option autoImplicit false

namespace DashboardAdmin

/-! ## Data model -/

/-- A primitive JSON value, for the properties whose `undefined` and `null` must be kept apart.
For `createdAt` it is the value as the `Date` constructor sees it: a missing property is
`undefined`; a boolean reaches the constructor as a number, an array or object as the string it
converts to; numbers are whole milliseconds. -/
inductive JsValue where
  | undefined
  | null
  | number (ms : Int)
  | string (s : String)
  deriving DecidableEq, Repr

/-- A product, with the properties the component reads. -/
structure Produit where
  id : Option String := none
  titre : Option String := none
  categorie : Option String := none
  status : Option String := none
  deriving DecidableEq, Repr

/-- A user, with the properties the component reads. -/
structure User where
  id : Option String := none
  uid : JsValue := JsValue.undefined
  email : Option String := none
  prenom : Option String := none
  nom : Option String := none
  role : Option String := none
  deriving DecidableEq, Repr

/-- An order, with the properties the component reads; `montantTotal` is the value of the
numeric literal of the response, read as a double by `toNumber`. -/
structure Order where
  id : Option String := none
  userId : Option String := none
  orderStatus : Option String := none
  paiementStatus : Option String := none
  montantTotal : Option ℚ := none
  createdAt : JsValue := JsValue.undefined
  deriving DecidableEq, Repr

/-- A payment, with the properties the component reads. -/
structure Paiement where
  id : Option String := none
  orderId : Option String := none
  methodePaiement : Option String := none
  status : Option String := none
  createdAt : JsValue := JsValue.undefined
  deriving DecidableEq, Repr

/-- The aggregate returned by `paiementService.getStats()`, which the component passes through
without computing on it; the fields are the values written in the response. -/
structure PaiementStats where
  totalPaiements : ℚ
  paiementsSucces : ℚ
  paiementsEnAttente : ℚ
  paiementsEchoue : ℚ
  montantTotal : ℚ
  deriving DecidableEq, Repr

/-! ## Aggregator: `computedStats` -/

/-- A JavaScript number: `NaN`, an infinity, or a finite double given by its exact value. The
two zeros are not told apart: they are equal as numbers and both falsy. -/
inductive JsNumber where
  | nan
  | inf (negative : Bool)
  | fin (value : ℚ)
  deriving DecidableEq, Repr

/-- The integer nearest to `p / q`, a tie going to the even one. -/
def roundHalfEven (p q : Nat) : Nat :=
  let f := p / q
  let r := p % q
  if 2 * r < q then f
  else if q < 2 * r then f + 1
  else if f % 2 = 0 then f else f + 1

/-- With fuel at least `n`, the value ⌊log₂ n⌋ for positive `n`. -/
def log2Fuel : Nat → Nat → Nat
  | 0, _ => 0
  | fuel + 1, n => if n < 2 then 0 else log2Fuel fuel (n / 2) + 1

/-- The value ⌊log₂ n⌋ for positive `n`. -/
def log2 (n : Nat) : Nat := log2Fuel n n

/-- The exponent ⌊log₂ (num / den)⌋ of a positive fraction. -/
def floorLog2 (num den : Nat) : Int :=
  let k : Int := (log2 num : Int) - (log2 den : Int)
  if 0 ≤ k then (if den * 2 ^ k.toNat ≤ num then k else k - 1)
  else (if den ≤ num * 2 ^ (-k).toNat then k else k - 1)

/-- The double nearest to `num / den`: 53 significant bits, round to nearest with ties to
even, steps of `2 ^ (-1074)` for subnormal values, an infinity from `2 ^ 1024` on. -/
def roundDouble (num : Int) (den : Nat) : JsNumber :=
  if num = 0 then JsNumber.fin 0
  else
    let a := num.natAbs
    let ex : Int := max (floorLog2 a den - 52) (-1074)
    if 0 ≤ ex then
      let m := roundHalfEven a (den * 2 ^ ex.toNat)
      let n := m * 2 ^ ex.toNat
      if 1024 ≤ (log2 m : Int) + ex then JsNumber.inf (decide (num < 0))
      else JsNumber.fin (mkRat (if num < 0 then -(n : Int) else n) 1)
    else
      let n := roundHalfEven (a * 2 ^ (-ex).toNat) den
      JsNumber.fin (mkRat (if num < 0 then -(n : Int) else n) (2 ^ (-ex).toNat))

/-- The number that `JSON.parse` reads from a numeric literal of value `q`. -/
def toNumber (q : ℚ) : JsNumber := roundDouble q.num q.den

/-- The operator `+` on two numbers: the exact sum of two finite doubles, rounded. -/
def jsAdd (x y : JsNumber) : JsNumber :=
  match x, y with
  | JsNumber.nan, _ => JsNumber.nan
  | _, JsNumber.nan => JsNumber.nan
  | JsNumber.inf s, JsNumber.inf t => if s = t then JsNumber.inf s else JsNumber.nan
  | JsNumber.inf s, JsNumber.fin _ => JsNumber.inf s
  | JsNumber.fin _, JsNumber.inf t => JsNumber.inf t
  | JsNumber.fin a, JsNumber.fin b =>
    roundDouble (a.num * b.den + b.num * a.den) (a.den * b.den)

/-- The falsy numbers: zero and `NaN`. -/
def isFalsy (x : JsNumber) : Bool :=
  match x with
  | JsNumber.nan => true
  | JsNumber.inf _ => false
  | JsNumber.fin v => decide (v = 0)

/-- The expression `x || 0` on a number property that may be missing: a missing or falsy `x`
gives `0`. -/
def orZero (x : Option ℚ) : JsNumber :=
  match x with
  | none => JsNumber.fin 0
  | some v => if isFalsy (toNumber v) then JsNumber.fin 0 else toNumber v

/-- The expression `a || b` on an object reference that may be `null`: objects are truthy. -/
def orElse {α : Type} (a b : Option α) : Option α :=
  match a with
  | some v => some v
  | none => b

/-- The `revenus` of `computedStats`:
`orders.filter(o => o.paiementStatus === 'SUCCES').reduce((sum, o) => sum + (o.montantTotal || 0), 0)`. -/
def revenus (orders : List Order) : JsNumber :=
  (orders.filter (fun o => o.paiementStatus == some "SUCCES")).foldl
    (fun sum o => jsAdd sum (orZero o.montantTotal)) (JsNumber.fin 0)

/-- The `produits` group of `computedStats`. -/
structure ProduitCounts where
  total : Nat
  disponibles : Nat
  rupture : Nat
  promo : Nat
  deriving DecidableEq, Repr

/-- The `users` group of `computedStats`. -/
structure UserCounts where
  total : Nat
  clients : Nat
  vendeurs : Nat
  admins : Nat
  deriving DecidableEq, Repr

/-- The `orders` group of `computedStats`. -/
structure OrderCounts where
  total : Nat
  enAttente : Nat
  livrees : Nat
  annulees : Nat
  revenus : JsNumber
  deriving DecidableEq, Repr

/-- The record returned by `computedStats`; `paiements` is kept as a nullable reference. -/
structure Stats where
  produits : ProduitCounts
  users : UserCounts
  orders : OrderCounts
  paiements : Option PaiementStats
  deriving DecidableEq, Repr

/-- The literal used when `paiementStats` is falsy. -/
def zeroPaiementStats : PaiementStats :=
  { totalPaiements := 0, paiementsSucces := 0, paiementsEnAttente := 0,
    paiementsEchoue := 0, montantTotal := 0 }

/-- The memoised `computedStats`, a function of the four values it depends on. -/
def computedStats (produits : List Produit) (users : List User) (orders : List Order)
    (paiementStats : Option PaiementStats) : Stats :=
  { produits :=
      { total := produits.length
        disponibles := (produits.filter (fun p => p.status == some "DISPONIBLE")).length
        rupture := (produits.filter (fun p => p.status == some "RUPTURE_STOCK")).length
        promo := (produits.filter (fun p => p.status == some "EN_PROMOTION")).length }
    users :=
      { total := users.length
        clients := (users.filter (fun u => u.role == some "CLIENT")).length
        vendeurs := (users.filter (fun u => u.role == some "VENDEUR")).length
        admins := (users.filter (fun u => u.role == some "ADMIN")).length }
    orders :=
      { total := orders.length
        enAttente := (orders.filter (fun o => o.orderStatus == some "EN_ATTENTE")).length
        livrees := (orders.filter (fun o => o.orderStatus == some "LIVRE")).length
        annulees := (orders.filter (fun o => o.orderStatus == some "ANNULE")).length
        revenus := revenus orders }
    paiements := orElse paiementStats (some zeroPaiementStats) }

/-! ## JavaScript runtime: strings and dates

The functions below follow the abstract operations of ECMAScript (Day, TimeWithinDay,
DayFromYear, YearFromTime, MonthFromTime, DateFromTime, MakeDay, MakeDate, TimeClip, LocalTime,
UTC) on integer time values. -/

/-- The parts of the runtime that the component's results depend on and that the language
leaves to the host: the local time zone (a fixed offset, in ms, added to UTC), `Date.parse`
(`none` for `NaN`), and `String.prototype.toLowerCase`. -/
structure Runtime where
  tzOffset : Int
  parse : String → Option Int
  toLowerCase : String → String

def msPerDay : Int := 86400000

/-- The operation TimeClip: a time value beyond 8.64e15 ms in magnitude is `NaN`. -/
def timeClip (t : Int) : Option Int :=
  if -8640000000000000 ≤ t ∧ t ≤ 8640000000000000 then some t else none

def day (t : Int) : Int := t / msPerDay

def timeWithinDay (t : Int) : Int := t % msPerDay

/-- The number of the first day of year `y`, counted from 1 January 1970. -/
def dayFromYear (y : Int) : Int :=
  365 * (y - 1970) + (y - 1969) / 4 - (y - 1901) / 100 + (y - 1601) / 400

/-- The year containing day number `d`: the largest `y` with `dayFromYear y ≤ d`, found from
the estimate `1970 + ⌊400 d / 146097⌋`, which is off by at most one. -/
def yearFromDay (d : Int) : Int :=
  let y := 1970 + (d * 400) / 146097
  if dayFromYear (y + 1) ≤ d then y + 1
  else if d < dayFromYear y then y - 1
  else y

def yearFromTime (t : Int) : Int := yearFromDay (day t)

/-- The value 1 in a leap year and 0 otherwise. -/
def inLeapYear (y : Int) : Int :=
  if (y % 4 = 0 ∧ y % 100 ≠ 0) ∨ y % 400 = 0 then 1 else 0

/-- The day within the year on which month `m` (0 to 11) starts. -/
def monthStart (m : Int) (leap : Int) : Int :=
  if m = 0 then 0
  else if m = 1 then 31
  else if m = 2 then 59 + leap
  else if m = 3 then 90 + leap
  else if m = 4 then 120 + leap
  else if m = 5 then 151 + leap
  else if m = 6 then 181 + leap
  else if m = 7 then 212 + leap
  else if m = 8 then 243 + leap
  else if m = 9 then 273 + leap
  else if m = 10 then 304 + leap
  else 334 + leap

def dayWithinYear (t : Int) : Int := day t - dayFromYear (yearFromTime t)

/-- The month (0 to 11) of time value `t`. -/
def monthFromTime (t : Int) : Int :=
  let d := dayWithinYear t
  let leap := inLeapYear (yearFromTime t)
  if d < 31 then 0
  else if d < 59 + leap then 1
  else if d < 90 + leap then 2
  else if d < 120 + leap then 3
  else if d < 151 + leap then 4
  else if d < 181 + leap then 5
  else if d < 212 + leap then 6
  else if d < 243 + leap then 7
  else if d < 273 + leap then 8
  else if d < 304 + leap then 9
  else if d < 334 + leap then 10
  else 11

/-- The day of the month (from 1) of time value `t`. -/
def dateFromTime (t : Int) : Int :=
  dayWithinYear t - monthStart (monthFromTime t) (inLeapYear (yearFromTime t)) + 1

/-- The operation MakeDay: the month may lie outside 0..11 and the date outside the month;
both carry over. -/
def makeDay (year month date : Int) : Int :=
  let ym := year + month / 12
  let mn := month % 12
  dayFromYear ym + monthStart mn (inLeapYear ym) + date - 1

def makeTime (hour min sec ms : Int) : Int :=
  hour * 3600000 + min * 60000 + sec * 1000 + ms

def makeDate (d time : Int) : Int := d * msPerDay + time

def localTime (rt : Runtime) (t : Int) : Int := t + rt.tzOffset

def utc (rt : Runtime) (t : Int) : Int := t - rt.tzOffset

/-- The method `getDate()` of a valid date. -/
def getDate (rt : Runtime) (tv : Int) : Int := dateFromTime (localTime rt tv)

/-- The method `getMonth()` of a valid date. -/
def getMonth (rt : Runtime) (tv : Int) : Int := monthFromTime (localTime rt tv)

/-- The method `setHours(0, 0, 0, 0)` of a valid date; the result is its new time value. -/
def setHoursZero (rt : Runtime) (tv : Int) : Option Int :=
  let t := localTime rt tv
  timeClip (utc rt (makeDate (day t) (makeTime 0 0 0 0)))

/-- The method `setDate(dt)` of a valid date. -/
def setDate (rt : Runtime) (tv : Int) (dt : Int) : Option Int :=
  let t := localTime rt tv
  timeClip (utc rt
    (makeDate (makeDay (yearFromTime t) (monthFromTime t) dt) (timeWithinDay t)))

/-- The method `setMonth(m)` of a valid date: the day of the month is kept as it is. -/
def setMonth (rt : Runtime) (tv : Int) (m : Int) : Option Int :=
  let t := localTime rt tv
  timeClip (utc rt
    (makeDate (makeDay (yearFromTime t) m (dateFromTime t)) (timeWithinDay t)))

/-- The time value of `new Date(v)`: `undefined` gives an Invalid Date, `null` converts to the
number 0, a number is taken as is, a string goes through `Date.parse`. -/
def newDate (rt : Runtime) (v : JsValue) : Option Int :=
  match v with
  | JsValue.undefined => none
  | JsValue.null => timeClip 0
  | JsValue.number ms => timeClip ms
  | JsValue.string str => (rt.parse str).bind timeClip

/-- The comparison `a >= b` of two dates: false as soon as one is invalid. -/
def dateGe (a b : Option Int) : Bool :=
  match a, b with
  | some x, some y => decide (y ≤ x)
  | _, _ => false

/-- The method `String.prototype.includes`. -/
def includes (s q : String) : Bool := decide (q.toList <:+: s.toList)

/-! ## Filter engine -/

/-- The function `filterByDate(items)` with `dateField = 'createdAt'`; `now` and `filterDate`
are the time values of the two `new Date()` it creates, and `createdAt` reads the item's
property. -/
def filterByDate {α : Type} (rt : Runtime) (dateFilter : String) (now filterDate : Int)
    (createdAt : α → JsValue) (items : List α) : List α :=
  if dateFilter = "all" then items
  else
    let cutoff : Option (Option Int) :=
      if dateFilter = "today" then some (setHoursZero rt filterDate)
      else if dateFilter = "week" then some (setDate rt filterDate (getDate rt now - 7))
      else if dateFilter = "month" then some (setMonth rt filterDate (getMonth rt now - 1))
      else none
    match cutoff with
    | none => items
    | some bound => items.filter (fun item => dateGe (newDate rt (createdAt item)) bound)

/-- The expression `field?.toLowerCase().includes(searchQuery.toLowerCase())` as a condition:
a missing field gives `undefined`, which is falsy. -/
def fieldIncludes (rt : Runtime) (field : Option String) (searchQuery : String) : Bool :=
  match field with
  | none => false
  | some v => includes (rt.toLowerCase v) (rt.toLowerCase searchQuery)

/-- The predicate passed to `produits.filter` in `renderProduits`. -/
def keepProduit (rt : Runtime) (searchQuery statusFilter : String) (p : Produit) : Bool :=
  let matchSearch := searchQuery = "" || fieldIncludes rt p.titre searchQuery
    || fieldIncludes rt p.categorie searchQuery
  let matchStatus := statusFilter = "" || p.status == some statusFilter
  matchSearch && matchStatus

/-- The predicate passed to `users.filter` in `renderUsers`. -/
def keepUser (rt : Runtime) (searchQuery statusFilter : String) (u : User) : Bool :=
  let matchSearch := searchQuery = "" || fieldIncludes rt u.email searchQuery
    || fieldIncludes rt u.prenom searchQuery || fieldIncludes rt u.nom searchQuery
  let matchStatus := statusFilter = "" || u.role == some statusFilter
  matchSearch && matchStatus

/-- The predicate passed to `filteredOrders.filter` in `renderOrders`. -/
def keepOrder (rt : Runtime) (searchQuery statusFilter : String) (o : Order) : Bool :=
  let matchSearch := searchQuery = "" || fieldIncludes rt o.id searchQuery
    || fieldIncludes rt o.userId searchQuery
  let matchStatus := statusFilter = "" || o.orderStatus == some statusFilter
  matchSearch && matchStatus

/-- The predicate passed to `filteredPaiements.filter` in `renderPaiements`. -/
def keepPaiement (rt : Runtime) (searchQuery statusFilter : String) (p : Paiement) : Bool :=
  let matchSearch := searchQuery = "" || fieldIncludes rt p.id searchQuery
    || fieldIncludes rt p.orderId searchQuery
  let matchStatus := statusFilter = "" || p.status == some statusFilter
  matchSearch && matchStatus

/-- The constant `matchSearch` of `renderProduits`. -/
def matchSearchProduit (rt : Runtime) (searchQuery : String) (p : Produit) : Bool :=
  searchQuery = "" || fieldIncludes rt p.titre searchQuery
    || fieldIncludes rt p.categorie searchQuery

/-- The constant `matchSearch` of `renderUsers`. -/
def matchSearchUser (rt : Runtime) (searchQuery : String) (u : User) : Bool :=
  searchQuery = "" || fieldIncludes rt u.email searchQuery
    || fieldIncludes rt u.prenom searchQuery || fieldIncludes rt u.nom searchQuery

/-- The constant `matchSearch` of `renderOrders`. -/
def matchSearchOrder (rt : Runtime) (searchQuery : String) (o : Order) : Bool :=
  searchQuery = "" || fieldIncludes rt o.id searchQuery
    || fieldIncludes rt o.userId searchQuery

/-- The constant `matchSearch` of `renderPaiements`. -/
def matchSearchPaiement (rt : Runtime) (searchQuery : String) (p : Paiement) : Bool :=
  searchQuery = "" || fieldIncludes rt p.id searchQuery
    || fieldIncludes rt p.orderId searchQuery

/-- The constant `matchStatus` of the four views: `!statusFilter || field === statusFilter`,
where `field` is `p.status`, `u.role`, `o.orderStatus` or `p.status`. -/
def matchStatus (statusFilter : String) (field : Option String) : Bool :=
  statusFilter = "" || field == some statusFilter

/-- The list `filteredProduits` of `renderProduits`. -/
def filteredProduits (rt : Runtime) (searchQuery statusFilter : String)
    (produits : List Produit) : List Produit :=
  produits.filter (keepProduit rt searchQuery statusFilter)

/-- The list `filteredUsers` of `renderUsers`. -/
def filteredUsers (rt : Runtime) (searchQuery statusFilter : String)
    (users : List User) : List User :=
  users.filter (keepUser rt searchQuery statusFilter)

/-- The list `filteredOrders` of `renderOrders`. -/
def filteredOrders (rt : Runtime) (searchQuery statusFilter dateFilter : String)
    (now filterDate : Int) (orders : List Order) : List Order :=
  (filterByDate rt dateFilter now filterDate Order.createdAt orders).filter
    (keepOrder rt searchQuery statusFilter)

/-- The list `filteredPaiements` of `renderPaiements`. -/
def filteredPaiements (rt : Runtime) (searchQuery statusFilter dateFilter : String)
    (now filterDate : Int) (paiements : List Paiement) : List Paiement :=
  (filterByDate rt dateFilter now filterDate Paiement.createdAt paiements).filter
    (keepPaiement rt searchQuery statusFilter)

/-! ## Sync controller: component state and loaders -/

/-- The settlement of the promise returned by a service call: rejected with an error, or
resolved with a value that may be `null`/`undefined` (`none`). -/
inductive Outcome (α : Type) where
  | rejected (error : String)
  | resolved (value : Option α)
  deriving DecidableEq, Repr

/-- The settlements of the backend calls issued during one load. -/
structure Services where
  getAllProduits : Outcome (List Produit)
  getAllUsers : Outcome (List User)
  getAllOrders : Outcome (List Order)
  getPaiementsByStatus : String → Outcome (List Paiement)
  getStats : Outcome PaiementStats

/-- The `useState` cells of the component, with their initial values, the entries written by
`console.error` (label and error), the time in ms, and the due times of the pending
`setTimeout(() => setNotification(''), 4000)` callbacks. -/
structure State where
  activeTab : String := "overview"
  loading : Bool := true
  notification : String := ""
  produits : List Produit := []
  users : List User := []
  orders : List Order := []
  paiements : List Paiement := []
  paiementStats : Option PaiementStats := none
  searchQuery : String := ""
  statusFilter : String := ""
  dateFilter : String := "all"
  errorLog : List (String × String) := []
  clock : Nat := 0
  timers : List Nat := []
  deriving DecidableEq, Repr

/-- The call `console.error(label, error)`. -/
def logError (label error : String) (s : State) : State :=
  { s with errorLog := s.errorLog ++ [(label, error)] }

/-- The function `showNotification(message)`: the slot is overwritten and a callback that empties
it is scheduled 4000 ms later; no earlier callback is cancelled. -/
def showNotification (message : String) (s : State) : State :=
  { s with notification := message, timers := s.timers ++ [s.clock + 4000] }

/-- Time passes until `t` with no other event: every pending callback due by `t` has run
`setNotification('')`. -/
def elapse (t : Nat) (s : State) : State :=
  { s with
    clock := max s.clock t
    notification := if s.timers.any (fun due => decide (due ≤ t)) then "" else s.notification
    timers := s.timers.filter (fun due => decide (t < due)) }

/-- The expression `data || []` on a fetched array: an array, even empty, is truthy. -/
def orEmpty {α : Type} (data : Option (List α)) : List α :=
  match data with
  | some l => l
  | none => []

/-- The promise `p.catch(() => fallback)`: a rejection is replaced by the fallback value. -/
def catchWith {α : Type} (p : Outcome α) (fallback : Option α) : Option α :=
  match p with
  | Outcome.resolved v => v
  | Outcome.rejected _ => fallback

/-- The loader `loadProduits`: the state after it settles, and the reason if it rejects
(it never does: the whole body is inside `try`/`catch`). -/
def loadProduits (sv : Services) (s : State) : State × Option String :=
  match sv.getAllProduits with
  | Outcome.resolved data => ({ s with produits := orEmpty data }, none)
  | Outcome.rejected error => (logError "Erreur chargement produits:" error s, none)

/-- The loader `loadUsers`. -/
def loadUsers (sv : Services) (s : State) : State × Option String :=
  match sv.getAllUsers with
  | Outcome.resolved data => ({ s with users := orEmpty data }, none)
  | Outcome.rejected error => (logError "Erreur chargement utilisateurs:" error s, none)

/-- The loader `loadOrders`. -/
def loadOrders (sv : Services) (s : State) : State × Option String :=
  match sv.getAllOrders with
  | Outcome.resolved ordersData => ({ s with orders := orEmpty ordersData }, none)
  | Outcome.rejected error => (logError "Erreur chargement commandes:" error s, none)

/-- The loader `loadPaiements`: three status queries and the stats query, each with its own
`.catch`; spreading a `null`/`undefined` result raises a `TypeError`, caught by the outer
`catch`, which only logs. -/
def loadPaiements (sv : Services) (s : State) : State × Option String :=
  let enAttente := catchWith (sv.getPaiementsByStatus "EN_ATTENTE") (some [])
  let succes := catchWith (sv.getPaiementsByStatus "SUCCES") (some [])
  let echoue := catchWith (sv.getPaiementsByStatus "ECHOUE") (some [])
  let stats := catchWith sv.getStats none
  match enAttente, succes, echoue with
  | some a, some b, some c =>
    ({ s with paiements := a ++ b ++ c, paiementStats := stats }, none)
  | _, _, _ => (logError "Erreur chargement paiements:" "TypeError" s, none)

/-- The callback `loadAllData`: `Promise.all` over the four loaders, which write disjoint
cells; it rejects with the first rejection among them, handled by the `catch` block. -/
def loadAllData (sv : Services) (s : State) : State :=
  let s0 := { s with loading := true }
  let r1 := loadProduits sv s0
  let r2 := loadUsers sv r1.1
  let r3 := loadOrders sv r2.1
  let r4 := loadPaiements sv r3.1
  let s5 :=
    match [r1.2, r2.2, r3.2, r4.2].findSome? id with
    | none => r4.1
    | some error =>
      showNotification "❌ Erreur lors du chargement des données"
        (logError "Erreur chargement données:" error r4.1)
  { s5 with loading := false }

/-! ## Mutation handlers -/

/-- A call to a backend service, with its arguments. -/
inductive Call where
  | getAllProduits
  | getAllUsers
  | getAllOrders
  | getPaiementsByStatus (status : String)
  | getStats
  | updateStatus (id : Option String) (newStatus : String)
  | deleteProduit (id : Option String)
  | updateOrderStatus (orderId : Option String) (orderStatus : String)
  | confirmPaiement (paiementId : Option String) (transactionReference : String)
  | failPaiement (paiementId : Option String) (reason : String)
  | updateUser (userId : Option String) (role : String)
  | deleteUser (userId : Option String)
  deriving DecidableEq, Repr

/-- The service calls issued by `loadProduits`. -/
def loadProduitsCalls : List Call := [Call.getAllProduits]

/-- The service calls issued by `loadUsers`. -/
def loadUsersCalls : List Call := [Call.getAllUsers]

/-- The service calls issued by `loadOrders`. -/
def loadOrdersCalls : List Call := [Call.getAllOrders]

/-- The service calls issued by `loadPaiements`. -/
def loadPaiementsCalls : List Call :=
  [Call.getPaiementsByStatus "EN_ATTENTE", Call.getPaiementsByStatus "SUCCES",
    Call.getPaiementsByStatus "ECHOUE", Call.getStats]

/-- The effect of running a handler to the end: the state once the handler and the reload it
started have settled, the service calls issued in order, and the reason if the handler's
promise rejects. -/
structure Run where
  state : State
  calls : List Call
  rejection : Option String
  deriving DecidableEq, Repr

/-- The handler `handleUpdateProduitStatus(id, newStatus)`; `result` is the settlement of
`produitService.updateStatus` and `sv` holds the settlements of the reload. -/
def handleUpdateProduitStatus (result : Outcome Unit) (sv : Services) (id : Option String)
    (newStatus : String) (s : State) : Run :=
  match result with
  | Outcome.resolved _ =>
    { state := (loadProduits sv (showNotification "✅ Statut du produit mis à jour!" s)).1
      calls := Call.updateStatus id newStatus :: loadProduitsCalls
      rejection := none }
  | Outcome.rejected error =>
    { state := showNotification "❌ Erreur lors de la mise à jour" (logError "Erreur:" error s)
      calls := [Call.updateStatus id newStatus]
      rejection := none }

/-- The handler `handleDeleteProduit(id)`; `confirmed` is the answer to `window.confirm`. -/
def handleDeleteProduit (confirmed : Bool) (result : Outcome Unit) (sv : Services)
    (id : Option String) (s : State) : Run :=
  if confirmed then
    match result with
    | Outcome.resolved _ =>
      { state := (loadProduits sv (showNotification "✅ Produit supprimé!" s)).1
        calls := Call.deleteProduit id :: loadProduitsCalls
        rejection := none }
    | Outcome.rejected error =>
      { state := showNotification "❌ Erreur lors de la suppression" (logError "Erreur:" error s)
        calls := [Call.deleteProduit id]
        rejection := none }
  else { state := s, calls := [], rejection := none }

/-- The handler `handleUpdateOrderStatus(orderId, newStatus)`. -/
def handleUpdateOrderStatus (result : Outcome Unit) (sv : Services) (orderId : Option String)
    (newStatus : String) (s : State) : Run :=
  match result with
  | Outcome.resolved _ =>
    { state := (loadOrders sv (showNotification "✅ Statut de commande mis à jour!" s)).1
      calls := Call.updateOrderStatus orderId newStatus :: loadOrdersCalls
      rejection := none }
  | Outcome.rejected error =>
    { state := showNotification "❌ Erreur lors de la mise à jour" (logError "Erreur:" error s)
      calls := [Call.updateOrderStatus orderId newStatus]
      rejection := none }

/-- The service call made by `handleUpdatePaiementStatus`, if any; `dateNow` is `Date.now()`. -/
def paiementStatusCall (dateNow : Int) (paiementId : Option String) (newStatus : String) :
    Option Call :=
  if newStatus = "SUCCES" then
    some (Call.confirmPaiement paiementId ("ADMIN-" ++ toString dateNow))
  else if newStatus = "ECHOUE" then
    some (Call.failPaiement paiementId "Rejeté par administrateur")
  else none

/-- The handler `handleUpdatePaiementStatus(paiementId, newStatus)`; `result` is the settlement
of the service call when one is made. -/
def handleUpdatePaiementStatus (result : Outcome Unit) (sv : Services) (dateNow : Int)
    (paiementId : Option String) (newStatus : String) (s : State) : Run :=
  match paiementStatusCall dateNow paiementId newStatus, result with
  | some call, Outcome.rejected error =>
    { state := showNotification "❌ Erreur lors de la mise à jour du paiement"
        (logError "Erreur:" error s)
      calls := [call]
      rejection := none }
  | call, _ =>
    { state := (loadPaiements sv (showNotification "✅ Statut de paiement mis à jour!" s)).1
      calls := call.toList ++ loadPaiementsCalls
      rejection := none }

/-- The handler `handleUpdateUserRole(userId, newRole)`. -/
def handleUpdateUserRole (result : Outcome Unit) (sv : Services) (userId : Option String)
    (newRole : String) (s : State) : Run :=
  match result with
  | Outcome.resolved _ =>
    { state := (loadUsers sv (showNotification "✅ Rôle utilisateur mis à jour!" s)).1
      calls := Call.updateUser userId newRole :: loadUsersCalls
      rejection := none }
  | Outcome.rejected error =>
    { state := showNotification "❌ Erreur lors de la mise à jour du rôle"
        (logError "Erreur:" error s)
      calls := [Call.updateUser userId newRole]
      rejection := none }

/-- The handler `handleDeleteUser(userId)`. -/
def handleDeleteUser (confirmed : Bool) (result : Outcome Unit) (sv : Services)
    (userId : Option String) (s : State) : Run :=
  if confirmed then
    match result with
    | Outcome.resolved _ =>
      { state := (loadUsers sv (showNotification "✅ Utilisateur supprimé!" s)).1
        calls := Call.deleteUser userId :: loadUsersCalls
        rejection := none }
    | Outcome.rejected error =>
      { state := showNotification "❌ Erreur lors de la suppression" (logError "Erreur:" error s)
        calls := [Call.deleteUser userId]
        rejection := none }
  else { state := s, calls := [], rejection := none }

/-! ## Users table: disabled controls -/

/-- The `userProfile` of `useAuth()`, with the property the table reads. -/
structure Profile where
  uid : JsValue := JsValue.undefined
  deriving DecidableEq, Repr

/-- The expression `userProfile?.uid`: `undefined` when there is no profile. -/
def profileUid (userProfile : Option Profile) : JsValue :=
  match userProfile with
  | none => JsValue.undefined
  | some profile => profile.uid

/-- The attribute `disabled={user.uid === userProfile?.uid}`, set both on the role selector and
on the delete button of a row. -/
def controlsDisabled (userProfile : Option Profile) (user : User) : Bool :=
  user.uid == profileUid userProfile

/-- The row is the currently authenticated account: a profile is loaded, it carries a uid, and
the row carries the same uid. -/
def isCurrentAccount (userProfile : Option Profile) (user : User) : Bool :=
  match userProfile with
  | none => false
  | some profile =>
    match profile.uid with
    | JsValue.undefined => false
    | JsValue.null => false
    | uid => user.uid == uid

/-- Modelled from the spec: `paiementService.getPaiementsByStatus(status)` over a backend
holding the payment list `P`; it resolves with the sublist of `P` whose status is `status`. -/
def backendPaiementsByStatus (P : List Paiement) (status : String) : Outcome (List Paiement) :=
  Outcome.resolved (some (P.filter (fun p => p.status == some status)))

/-- A state reached after an earlier load: one user is in the snapshot. -/
def staleUsersState : State :=
  { loading := false, users := [{ uid := JsValue.string "u1", email := some "a@b.c", role := some "CLIENT" }] }

/-- A reload in which only `userService.getAllUsers` fails. -/
def usersFailServices : Services :=
  { getAllProduits := Outcome.resolved (some [])
    getAllUsers := Outcome.rejected "Network Error"
    getAllOrders := Outcome.resolved (some [])
    getPaiementsByStatus := fun _ => Outcome.resolved (some [])
    getStats := Outcome.resolved (some zeroPaiementStats) }

/-- A reload in which `paiementService.getStats` fails and the status queries return empty
lists. -/
def statsFailServices : Services :=
  { usersFailServices with getStats := Outcome.rejected "503" }

/-- A reload in which the three status queries and the stats query of the payments all fail,
while products, users and orders are fetched. -/
def paiementsFailServices : Services :=
  { getAllProduits := Outcome.resolved (some [{ id := some "p1", titre := some "Lampe" }])
    getAllUsers := Outcome.resolved none
    getAllOrders := Outcome.resolved (some [])
    getPaiementsByStatus := fun _ => Outcome.rejected "Network Error"
    getStats := Outcome.rejected "Network Error" }

/-- A reload in which only the `SUCCES` query fails. -/
def succesFailServices : Services :=
  { getAllProduits := Outcome.rejected "500"
    getAllUsers := Outcome.resolved (some [])
    getAllOrders := Outcome.rejected "500"
    getPaiementsByStatus := fun status =>
      if status = "SUCCES" then Outcome.rejected "timeout"
      else Outcome.resolved (some [{ id := some status, status := some status }])
    getStats := Outcome.resolved (some zeroPaiementStats) }

/-! ## Views of the component state and tab buttons -/

/-- The list shown by `renderProduits` in state `s`. -/
def visibleProduits (rt : Runtime) (s : State) : List Produit :=
  filteredProduits rt s.searchQuery s.statusFilter s.produits

/-- The list shown by `renderUsers` in state `s`. -/
def visibleUsers (rt : Runtime) (s : State) : List User :=
  filteredUsers rt s.searchQuery s.statusFilter s.users

/-- The list shown by `renderOrders` in state `s`. -/
def visibleOrders (rt : Runtime) (now filterDate : Int) (s : State) : List Order :=
  filteredOrders rt s.searchQuery s.statusFilter s.dateFilter now filterDate s.orders

/-- The list shown by `renderPaiements` in state `s`. -/
def visiblePaiements (rt : Runtime) (now filterDate : Int) (s : State) : List Paiement :=
  filteredPaiements rt s.searchQuery s.statusFilter s.dateFilter now filterDate s.paiements

/-- The `onClick` of a button of `admin-tabs`:
`setActiveTab(tab); setSearchQuery(''); setStatusFilter('')`. -/
def clickTab (tab : String) (s : State) : State :=
  { s with activeTab := tab, searchQuery := "", statusFilter := "" }

/-! ## Status tables and rendered labels -/

/-- An entry of a status table. -/
structure StatusInfo where
  label : String
  icon : String
  color : Option String := none
  deriving DecidableEq, Repr

/-- The constant `ORDER_STATUS`. -/
def ORDER_STATUS : List (String × StatusInfo) :=
  [ ("EN_ATTENTE", { label := "En Attente", icon := "⏳", color := some "#ffc107" }),
    ("EN_COURS", { label := "En Cours", icon := "📦", color := some "#17a2b8" }),
    ("EN_ROUTE", { label := "En Route", icon := "🚚", color := some "#007bff" }),
    ("LIVRE", { label := "Livré", icon := "✅", color := some "#28a745" }),
    ("ANNULE", { label := "Annulé", icon := "❌", color := some "#dc3545" }) ]

/-- The constant `PAIEMENT_STATUS`. -/
def PAIEMENT_STATUS : List (String × StatusInfo) :=
  [ ("EN_ATTENTE", { label := "En Attente", icon := "⏳", color := some "#ffc107" }),
    ("SUCCES", { label := "Réussi", icon := "✅", color := some "#28a745" }),
    ("ECHOUE", { label := "Échoué", icon := "❌", color := some "#dc3545" }) ]

/-- The constant `METHODES_PAIEMENT`. -/
def METHODES_PAIEMENT : List (String × StatusInfo) :=
  [ ("MOBILE_MONEY", { label := "Mobile Money", icon := "📱" }),
    ("CARTE_BANCAIRE", { label := "Carte Bancaire", icon := "💳" }),
    ("ESPECES", { label := "Espèces", icon := "💵" }),
    ("VIREMENT", { label := "Virement", icon := "🏦" }) ]

/-- The expression `TABLE[field]?.label`: `undefined` (`none`) when the field is missing or is
not a key of the table. A property inherited from `Object.prototype` has no `label` either. -/
def labelOf (table : List (String × StatusInfo)) (field : Option String) : Option String :=
  match field with
  | none => none
  | some key => (table.lookup key).map (fun info => info.label)

/-- The expression `TABLE[field]?.label || field`: the label when there is a non-empty one,
the raw value of the field otherwise. -/
def labelOrRaw (table : List (String × StatusInfo)) (field : Option String) : Option String :=
  match labelOf table field with
  | some label => if label = "" then field else some label
  | none => field

/-- The order status label of a row of the overview list (`renderOverview`). -/
def overviewOrderStatusLabel (o : Order) : Option String :=
  labelOf ORDER_STATUS o.orderStatus

/-- The payment status label of a row of the orders table (`renderOrders`). -/
def ordersTablePaiementStatusLabel (o : Order) : Option String :=
  labelOrRaw PAIEMENT_STATUS o.paiementStatus

/-- The method label of a row of the payments table (`renderPaiements`). -/
def paiementsTableMethodeLabel (p : Paiement) : Option String :=
  labelOrRaw METHODES_PAIEMENT p.methodePaiement

/-- The status label of a row of the payments table (`renderPaiements`). -/
def paiementsTableStatusLabel (p : Paiement) : Option String :=
  labelOrRaw PAIEMENT_STATUS p.status

/-- The order status label of the order modal (`renderOrderModal`). -/
def orderModalOrderStatusLabel (o : Order) : Option String :=
  labelOf ORDER_STATUS o.orderStatus

/-- The payment status label of the order modal (`renderOrderModal`). -/
def orderModalPaiementStatusLabel (o : Order) : Option String :=
  labelOf PAIEMENT_STATUS o.paiementStatus

/-- The method label of the payment modal (`renderPaiementModal`). -/
def paiementModalMethodeLabel (p : Paiement) : Option String :=
  labelOf METHODES_PAIEMENT p.methodePaiement

/-- The status label of the payment modal (`renderPaiementModal`). -/
def paiementModalStatusLabel (p : Paiement) : Option String :=
  labelOf PAIEMENT_STATUS p.status

/-- An order whose two statuses are not keys of the status tables. -/
def orderUnknownStatus : Order :=
  { id := some "o9", orderStatus := some "RETOURNE", paiementStatus := some "REMBOURSE" }

/-- A payment whose method and status are not keys of the tables. -/
def paiementUnknownStatus : Paiement :=
  { id := some "pay9", methodePaiement := some "CRYPTO", status := some "REMBOURSE" }

/-- The stats record returned by the backend in the reload below. -/
def freshPaiementStats : PaiementStats :=
  { totalPaiements := 2, paiementsSucces := 0, paiementsEnAttente := 1, paiementsEchoue := 1,
    montantTotal := 0 }

/-- A reload in which the `SUCCES` query resolves with `null` and every other call resolves
with data. -/
def nullSuccesServices : Services :=
  { getAllProduits := Outcome.resolved (some [])
    getAllUsers := Outcome.resolved (some [])
    getAllOrders := Outcome.resolved (some [])
    getPaiementsByStatus := fun status =>
      if status = "SUCCES" then Outcome.resolved none
      else Outcome.resolved (some [{ id := some (if status = "EN_ATTENTE" then "pay1" else "pay3"),
                                     status := some status }])
    getStats := Outcome.resolved (some freshPaiementStats) }

/-- A state reached after an earlier load of the payments. -/
def stalePaiementsState : State :=
  { loading := false, paiements := [{ id := some "old", status := some "EN_ATTENTE" }],
    paiementStats := some zeroPaiementStats }

/-- A row of the users table that has an `id` but no `uid` property. -/
def rowWithoutUid : User :=
  { id := some "u2", email := some "client@example.com", role := some "CLIENT" }

/-- The condition under which `filterByDate` keeps an item. -/
def dateKeep {α : Type} (rt : Runtime) (dateFilter : String) (now filterDate : Int)
    (createdAt : α → JsValue) (item : α) : Bool :=
  if dateFilter = "all" then true
  else if dateFilter = "today" then
    dateGe (newDate rt (createdAt item)) (setHoursZero rt filterDate)
  else if dateFilter = "week" then
    dateGe (newDate rt (createdAt item)) (setDate rt filterDate (getDate rt now - 7))
  else if dateFilter = "month" then
    dateGe (newDate rt (createdAt item)) (setMonth rt filterDate (getMonth rt now - 1))
  else true

/-! ## A concrete runtime for the examples -/

def digitValue (c : Char) : Option Int :=
  if c.isDigit then some ((c.toNat : Int) - 48) else none

def twoDigits (a b : Char) : Option Int :=
  match digitValue a, digitValue b with
  | some x, some y => some (10 * x + y)
  | _, _ => none

/-- An instance of `Date.parse` for the form `YYYY-MM-DDTHH:mm:ss`, which the language reads as
local time; every other string is `NaN` here. -/
def parseLocalDateTime (tzOffset : Int) (str : String) : Option Int :=
  match str.toList with
  | [y1, y2, y3, y4, '-', m1, m2, '-', d1, d2, 'T', h1, h2, ':', n1, n2, ':', s1, s2] =>
    match twoDigits y1 y2, twoDigits y3 y4, twoDigits m1 m2, twoDigits d1 d2,
      twoDigits h1 h2, twoDigits n1 n2, twoDigits s1 s2 with
    | some yh, some yl, some mo, some dd, some hh, some mi, some ss =>
      if 1 ≤ mo ∧ mo ≤ 12 ∧ 1 ≤ dd ∧ dd ≤ 31 ∧ hh ≤ 23 ∧ mi ≤ 59 ∧ ss ≤ 59 then
        some (makeDate (makeDay (100 * yh + yl) (mo - 1) dd) (makeTime hh mi ss 0) - tzOffset)
      else none
    | _, _, _, _, _, _, _ => none
  | _ => none

/-- Lower-casing of the letters A to Z, character by character. -/
def asciiLower (str : String) : String := String.mk (str.toList.map Char.toLower)

/-- A runtime whose local time is UTC, with ASCII lower-casing. -/
def utcRuntime : Runtime :=
  { tzOffset := 0, parse := parseLocalDateTime 0, toLowerCase := asciiLower }

/-- The time value of 2024-03-15T12:00:00 in `utcRuntime`. -/
def march15Noon : Int := 1710504000000

/-- The time value of 2024-03-31T12:00:00 in `utcRuntime`. -/
def march31Noon : Int := 1711886400000

/-- The number of days of month `mn` (0 to 11) of year `ym`. -/
def daysInMonth (ym mn : Int) : Int :=
  if mn = 11 then 31 else monthStart (mn + 1) (inLeapYear ym) - monthStart mn (inLeapYear ym)

/-- The bound of the `'month'` bucket in the words of the specification: the same time of day
in the previous calendar month, on the same day number, or on that month's last day when the
month is shorter. -/
def oneCalendarMonthBefore (rt : Runtime) (now : Int) : Option Int :=
  let t := localTime rt now
  let ym := yearFromTime t + (monthFromTime t - 1) / 12
  let mn := (monthFromTime t - 1) % 12
  let dt := min (dateFromTime t) (daysInMonth ym mn)
  timeClip (utc rt (makeDate (makeDay ym mn dt) (timeWithinDay t)))

/-! ## Theorems -/

/-! ### Revenue -/

theorem log2Fuel_eq (fuel n : Nat) (h : n ≤ fuel) : log2Fuel fuel n = Nat.log2 n := by
  induction fuel generalizing n with
  | zero =>
    have hn : n = 0 := by omega
    subst hn
    rw [Nat.log2]
    rfl
  | succ fuel ih =>
    rw [Nat.log2]
    unfold log2Fuel
    by_cases h2 : n < 2
    · rw [if_pos h2, if_neg (by omega)]
    · rw [if_neg h2, if_pos (by omega), ih (n / 2) (by omega)]

/-- The function `log2` is the binary logarithm rounded down. -/
theorem log2_eq (n : Nat) : log2 n = Nat.log2 n := log2Fuel_eq n n (Nat.le_refl n)

theorem roundDouble_ne_nan (num : Int) (den : Nat) : roundDouble num den ≠ JsNumber.nan := by
  unfold roundDouble
  dsimp only
  split_ifs <;> exact fun h => JsNumber.noConfusion h

/-- The expression `x || 0` gives the number read from `x`, and `0` when `x` is missing. -/
theorem orZero_some (v : ℚ) : orZero (some v) = toNumber v := by
  show (if isFalsy (toNumber v) = true then JsNumber.fin 0 else toNumber v) = toNumber v
  have hn : toNumber v ≠ JsNumber.nan := roundDouble_ne_nan _ _
  generalize toNumber v = d at hn ⊢
  cases d with
  | nan => exact absurd rfl hn
  | inf s => simp [isFalsy]
  | fin q =>
    by_cases hq : q = 0
    · simp [isFalsy, hq]
    · simp [isFalsy, hq]

theorem revenus_eq_foldl (orders : List Order) :
    revenus orders
      = ((orders.filter (fun o => o.paiementStatus == some "SUCCES")).map
          (fun o => orZero o.montantTotal)).foldl jsAdd (JsNumber.fin 0) := by
  rw [List.foldl_map]
  rfl

/-! #### Whole amounts are added exactly -/

theorem roundHalfEven_mul (a c : Nat) (hc : 0 < c) : roundHalfEven (a * c) c = a := by
  unfold roundHalfEven
  simp [Nat.mul_div_cancel _ hc, hc]

theorem floorLog2_one (a : Nat) (ha : a ≠ 0) : floorLog2 a 1 = (Nat.log2 a : Int) := by
  unfold floorLog2
  have h1 : log2 1 = 0 := by decide
  have hle := Nat.log2_self_le ha
  simp only [log2_eq a, h1, Nat.cast_zero, sub_zero, Int.toNat_ofNat, one_mul]
  rw [if_pos (Int.ofNat_nonneg _), if_pos hle]

theorem mkRat_natCast_mul (n c : Nat) (hc : c ≠ 0) : mkRat ((n * c : Nat) : Int) c = (n : ℚ) := by
  have h := Rat.mkRat_mul_right (n := (n : Int)) (d := 1) hc
  rw [one_mul] at h
  rw [Nat.cast_mul, h]
  simp [Rat.mkRat_one]

theorem roundHalfEven_one (a : Nat) : roundHalfEven a 1 = a := by
  have := roundHalfEven_mul a 1 Nat.one_pos
  rwa [Nat.mul_one] at this

/-- A natural number up to 2^53 is a double: reading it does not round. -/
theorem roundDouble_natCast (n : Nat) (h : n ≤ 2 ^ 53) :
    roundDouble (n : Int) 1 = JsNumber.fin (n : ℚ) := by
  by_cases hn : n = 0
  · subst hn; simp [roundDouble]
  by_cases h53 : n = 2 ^ 53
  · subst h53
    set_option maxRecDepth 100000 in
    decide
  have hlog : Nat.log2 n < 53 := (Nat.log2_lt hn).2 (by omega)
  unfold roundDouble
  have hne : ((n : Int) = 0) ↔ False := by simp [hn]
  have hneg : ((n : Int) < 0) ↔ False := by simp
  simp only [hne, hneg, if_false, Int.natAbs_ofNat, floorLog2_one n hn]
  by_cases h52 : Nat.log2 n = 52
  · have hex : max ((Nat.log2 n : Int) - 52) (-1074) = 0 := by omega
    rw [hex]
    have hlm : log2 n = 52 := by rw [log2_eq, h52]
    simp [roundHalfEven_one, hlm, Rat.mkRat_one]
  · have hex : max ((Nat.log2 n : Int) - 52) (-1074) = -((52 - Nat.log2 n : Nat) : Int) := by
      omega
    have hpos : 0 < 52 - Nat.log2 n := by omega
    rw [hex]
    have hnot : ¬ (0 : Int) ≤ -((52 - Nat.log2 n : Nat) : Int) := by omega
    simp only [hnot, if_false, neg_neg, Int.toNat_ofNat, roundHalfEven_one]
    rw [mkRat_natCast_mul n _ (by positivity)]

theorem jsAdd_natCast (a b : Nat) (h : a + b ≤ 2 ^ 53) :
    jsAdd (JsNumber.fin (a : ℚ)) (JsNumber.fin (b : ℚ)) = JsNumber.fin ((a + b : Nat) : ℚ) := by
  have := roundDouble_natCast (a + b) h
  simpa [jsAdd] using this

theorem foldl_jsAdd_natCast (l : List Nat) (acc : Nat) (h : acc + l.sum ≤ 2 ^ 53) :
    (l.map (fun n : Nat => JsNumber.fin (n : ℚ))).foldl jsAdd (JsNumber.fin (acc : ℚ))
      = JsNumber.fin ((acc + l.sum : Nat) : ℚ) := by
  induction l generalizing acc with
  | nil => simp
  | cons n t ih =>
    simp only [List.sum_cons] at h
    rw [List.map_cons, List.foldl_cons, jsAdd_natCast acc n (by omega), ih (acc + n) (by omega),
      List.sum_cons, Nat.add_assoc]

theorem orZero_natCast (n : Nat) (h : n ≤ 2 ^ 53) :
    orZero (some (n : ℚ)) = JsNumber.fin (n : ℚ) := by
  rw [orZero_some]
  have := roundDouble_natCast n h
  simpa [toNumber] using this

/-- Whole amounts are added without rounding as long as the total stays within 2^53: the
revenue is then the exact sum of the amounts of the orders paid with success. -/
theorem revenus_exact_of_nat_amounts (orders : List Order) (amount : Order → Nat)
    (hamount : ∀ o ∈ orders,
      o.montantTotal = some (amount o : ℚ) ∨ (o.montantTotal = none ∧ amount o = 0))
    (hbound : ((orders.filter (fun o => o.paiementStatus == some "SUCCES")).map amount).sum
      ≤ 2 ^ 53) :
    revenus orders
      = JsNumber.fin
          ((((orders.filter (fun o => o.paiementStatus == some "SUCCES")).map amount).sum : Nat)
            : ℚ) := by
  rw [revenus_eq_foldl]
  have hmap : (orders.filter (fun o => o.paiementStatus == some "SUCCES")).map
        (fun o => orZero o.montantTotal)
      = ((orders.filter (fun o => o.paiementStatus == some "SUCCES")).map amount).map
        (fun n : Nat => JsNumber.fin (n : ℚ)) := by
    rw [List.map_map]
    apply List.map_congr_left
    intro o ho
    have hle : amount o ≤ 2 ^ 53 :=
      le_trans (List.single_le_sum (fun _ _ => Nat.zero_le _) _ (List.mem_map_of_mem amount ho))
        hbound
    rcases hamount o (List.mem_filter.mp ho).1 with h | ⟨h, h0⟩
    · rw [h]
      exact orZero_natCast _ hle
    · rw [h, Function.comp_apply, h0]
      rfl
  rw [hmap]
  have := foldl_jsAdd_natCast _ 0 (by simpa using hbound)
  simpa using this

/-- The sum of doubles is taken in list order and rounded at each step: 0.1, 0.2 and 0.3 give
0.6000000000000001, 2^53 and 1 give 2^53, and two amounts of 1e308 give `Infinity`. -/
theorem revenus_rounds_each_step :
    revenus
        [ { montantTotal := some (mkRat 1 10), paiementStatus := some "SUCCES" },
          { montantTotal := some (mkRat 2 10), paiementStatus := some "SUCCES" },
          { montantTotal := some (mkRat 3 10), paiementStatus := some "SUCCES" } ]
        = JsNumber.fin (mkRat 1351079888211149 2251799813685248)
      ∧ revenus
        [ { montantTotal := some 9007199254740992, paiementStatus := some "SUCCES" },
          { montantTotal := some 1, paiementStatus := some "SUCCES" } ]
        = JsNumber.fin 9007199254740992
      ∧ revenus
        [ { montantTotal := some (mkRat (10 ^ 308) 1), paiementStatus := some "SUCCES" },
          { montantTotal := some (mkRat (10 ^ 308) 1), paiementStatus := some "SUCCES" } ]
        = JsNumber.inf false := by
  set_option maxRecDepth 100000 in
  set_option exponentiation.threshold 4000 in
  decide

/-- C1: `computedStats.orders.revenus` is the sum, taken in list order with the addition of
JavaScript numbers starting from 0, of `montantTotal || 0` over exactly the orders whose
`paiementStatus` is `'SUCCES'`; an order with any other payment status contributes nothing,
wherever it stands and whatever its `orderStatus`; a missing `montantTotal` counts as 0; for
whole amounts whose total stays within 2^53 no rounding occurs and the result is the exact sum;
and the three-order example gives 100. -/
theorem C1_revenus_sum_over_succes :
    (∀ (produits : List Produit) (users : List User) (orders : List Order)
        (ps : Option PaiementStats),
      (computedStats produits users orders ps).orders.revenus
        = ((orders.filter (fun o => o.paiementStatus == some "SUCCES")).map
            (fun o => orZero o.montantTotal)).foldl jsAdd (JsNumber.fin 0))
    ∧ (∀ (before after : List Order) (o : Order), o.paiementStatus ≠ some "SUCCES" →
        revenus (before ++ o :: after) = revenus (before ++ after))
    ∧ (∀ (orders : List Order) (o : Order), o.paiementStatus = some "SUCCES" →
        revenus (orders ++ [o]) = jsAdd (revenus orders) (orZero o.montantTotal))
    ∧ (orZero none = JsNumber.fin 0 ∧ ∀ v : ℚ, orZero (some v) = toNumber v)
    ∧ (∀ (orders : List Order) (amount : Order → Nat),
        (∀ o ∈ orders,
          o.montantTotal = some (amount o : ℚ) ∨ (o.montantTotal = none ∧ amount o = 0)) →
        ((orders.filter (fun o => o.paiementStatus == some "SUCCES")).map amount).sum ≤ 2 ^ 53 →
        revenus orders
          = JsNumber.fin
              ((((orders.filter (fun o => o.paiementStatus == some "SUCCES")).map amount).sum
                : Nat) : ℚ))
    ∧ (computedStats [] []
        [ { montantTotal := some 100, paiementStatus := some "SUCCES" },
          { montantTotal := some 50, paiementStatus := some "EN_ATTENTE" },
          { montantTotal := some 30, paiementStatus := some "ECHOUE" } ] none).orders.revenus
        = JsNumber.fin 100 := by
  refine ⟨?_, ?_, ?_, ⟨rfl, orZero_some⟩, revenus_exact_of_nat_amounts, ?_⟩
  · intro produits users orders ps
    exact revenus_eq_foldl orders
  · intro before after o h
    simp [revenus, List.filter_append, List.filter_cons, h]
  · intro orders o h
    simp [revenus, List.filter_append, List.filter_cons, h, List.foldl_append]
  · decide

theorem C1_revenus_sum_over_succes_witness :
    revenus ([{ montantTotal := some 100, paiementStatus := some "SUCCES" }]
        ++ { montantTotal := some 50, orderStatus := some "LIVRE",
             paiementStatus := some "EN_ATTENTE" }
          :: [{ montantTotal := some 30, paiementStatus := some "SUCCES" }])
      = revenus ([{ montantTotal := some 100, paiementStatus := some "SUCCES" }]
        ++ [{ montantTotal := some 30, paiementStatus := some "SUCCES" }]) :=
  C1_revenus_sum_over_succes.2.1 _ _ _ (by decide)

/-! ### Loaders -/

theorem loadProduits_users (sv : Services) (s : State) : (loadProduits sv s).1.users = s.users := by
  unfold loadProduits; cases sv.getAllProduits <;> rfl

theorem loadOrders_users (sv : Services) (s : State) : (loadOrders sv s).1.users = s.users := by
  unfold loadOrders; cases sv.getAllOrders <;> rfl

theorem loadPaiements_users (sv : Services) (s : State) :
    (loadPaiements sv s).1.users = s.users := by
  unfold loadPaiements
  cases catchWith (sv.getPaiementsByStatus "EN_ATTENTE") (some []) <;>
    cases catchWith (sv.getPaiementsByStatus "SUCCES") (some []) <;>
      cases catchWith (sv.getPaiementsByStatus "ECHOUE") (some []) <;> rfl

theorem loadProduits_settles (sv : Services) (s : State) : (loadProduits sv s).2 = none := by
  unfold loadProduits; cases sv.getAllProduits <;> rfl

theorem loadUsers_settles (sv : Services) (s : State) : (loadUsers sv s).2 = none := by
  unfold loadUsers; cases sv.getAllUsers <;> rfl

theorem loadOrders_settles (sv : Services) (s : State) : (loadOrders sv s).2 = none := by
  unfold loadOrders; cases sv.getAllOrders <;> rfl

theorem loadPaiements_settles (sv : Services) (s : State) : (loadPaiements sv s).2 = none := by
  unfold loadPaiements
  cases catchWith (sv.getPaiementsByStatus "EN_ATTENTE") (some []) <;>
    cases catchWith (sv.getPaiementsByStatus "SUCCES") (some []) <;>
      cases catchWith (sv.getPaiementsByStatus "ECHOUE") (some []) <;> rfl

/-- After `loadAllData` the state is the one left by the four loaders, with `loading` off:
the `catch` block of `loadAllData` is never entered. -/
theorem loadAllData_eq (sv : Services) (s : State) :
    loadAllData sv s
      = { (loadPaiements sv (loadOrders sv (loadUsers sv
            (loadProduits sv { s with loading := true }).1).1).1).1 with loading := false } := by
  simp [loadAllData, loadProduits_settles, loadUsers_settles, loadOrders_settles,
    loadPaiements_settles]

theorem loadAllData_users_of_rejected (sv : Services) (s : State) (error : String)
    (h : sv.getAllUsers = Outcome.rejected error) : (loadAllData sv s).users = s.users := by
  rw [loadAllData_eq]
  show (loadPaiements sv _).1.users = s.users
  rw [loadPaiements_users, loadOrders_users]
  simp only [loadUsers, h, logError]
  exact loadProduits_users sv _

/-- C2 fails as stated: after an earlier load left one user in the snapshot, a reload in which
only `getAllUsers` fails leaves that user in the users collection, which is not emptied. -/
theorem C2_users_not_emptied_on_failure :
    usersFailServices.getAllUsers = Outcome.rejected "Network Error"
      ∧ usersFailServices.getAllProduits = Outcome.resolved (some [])
      ∧ usersFailServices.getAllOrders = Outcome.resolved (some [])
      ∧ (∀ status, usersFailServices.getPaiementsByStatus status = Outcome.resolved (some []))
      ∧ usersFailServices.getStats = Outcome.resolved (some zeroPaiementStats)
      ∧ (loadAllData usersFailServices staleUsersState).users
          = [{ uid := JsValue.string "u1", email := some "a@b.c", role := some "CLIENT" }]
      ∧ (loadAllData usersFailServices staleUsersState).users ≠ [] := by
  refine ⟨rfl, rfl, rfl, fun _ => rfl, rfl, ?_, ?_⟩
  · rw [loadAllData_users_of_rejected usersFailServices staleUsersState "Network Error" rfl]
    rfl
  · rw [loadAllData_users_of_rejected usersFailServices staleUsersState "Network Error" rfl]
    simp [staleUsersState]

/-- C2 (amended): if `userService.getAllUsers` fails, then after `loadAllData` the users
collection is the one held when `loadAllData` was started, whatever the other fetches did; so
it is empty when it was empty at the start, as on the first load. -/
theorem C2_users_kept_on_failure (sv : Services) (s : State) (error : String)
    (h : sv.getAllUsers = Outcome.rejected error) :
    (loadAllData sv s).users = s.users
      ∧ (s.users = [] → (loadAllData sv s).users = []) := by
  have hk := loadAllData_users_of_rejected sv s error h
  exact ⟨hk, fun h0 => hk.trans h0⟩

theorem C2_users_kept_on_failure_witness :
    (loadAllData usersFailServices { users := [] }).users = ({ users := [] } : State).users
      ∧ (({ users := [] } : State).users = []
          → (loadAllData usersFailServices { users := [] }).users = []) :=
  C2_users_kept_on_failure usersFailServices { users := [] } "Network Error" rfl

/-! ### Partition and merge -/

theorem filter3_perm {α : Type} (p q r : α → Bool) (l : List α)
    (h : ∀ x ∈ l, (p x = true ∧ q x = false ∧ r x = false)
      ∨ (p x = false ∧ q x = true ∧ r x = false)
      ∨ (p x = false ∧ q x = false ∧ r x = true)) :
    (l.filter p ++ l.filter q ++ l.filter r).Perm l := by
  induction l with
  | nil => simp
  | cons x t ih =>
    have iht := ih (fun y hy => h y (List.mem_cons_of_mem x hy))
    rcases h x (List.mem_cons_self x t) with ⟨hp, hq, hr⟩ | ⟨hp, hq, hr⟩ | ⟨hp, hq, hr⟩
    · simp only [List.filter_cons, hp, hq, hr, if_true, Bool.false_eq_true, if_false,
        List.cons_append]
      exact List.Perm.cons x iht
    · simp only [List.filter_cons, hp, hq, hr, if_true, Bool.false_eq_true, if_false,
        List.append_assoc, List.cons_append]
      refine List.Perm.trans List.perm_middle (List.Perm.cons x ?_)
      simpa only [List.append_assoc] using iht
    · simp only [List.filter_cons, hp, hq, hr, if_true, Bool.false_eq_true, if_false]
      exact List.Perm.trans List.perm_middle (List.Perm.cons x iht)

theorem status_cases (p : Paiement)
    (h : p.status = some "EN_ATTENTE" ∨ p.status = some "SUCCES" ∨ p.status = some "ECHOUE") :
    ((p.status == some "EN_ATTENTE") = true ∧ (p.status == some "SUCCES") = false
        ∧ (p.status == some "ECHOUE") = false)
      ∨ ((p.status == some "EN_ATTENTE") = false ∧ (p.status == some "SUCCES") = true
        ∧ (p.status == some "ECHOUE") = false)
      ∨ ((p.status == some "EN_ATTENTE") = false ∧ (p.status == some "SUCCES") = false
        ∧ (p.status == some "ECHOUE") = true) := by
  rcases h with h | h | h <;> rw [h] <;> decide

/-- C3: over a duplicate-free backend list `P` whose payments each have one of the three
statuses, with each status query resolving to the sublist of `P` of that status, the
`paiements` collection stored by `loadPaiements` is a permutation of `P`: it has no duplicate
and holds every payment of `P` exactly once, and nothing else. -/
theorem C3_partition_merge (P : List Paiement) (sv : Services) (s : State)
    (hnodup : P.Nodup)
    (hstatus : ∀ p ∈ P,
      p.status = some "EN_ATTENTE" ∨ p.status = some "SUCCES" ∨ p.status = some "ECHOUE")
    (hquery : sv.getPaiementsByStatus = backendPaiementsByStatus P) :
    (loadPaiements sv s).1.paiements.Perm P
      ∧ (loadPaiements sv s).1.paiements.Nodup
      ∧ ∀ p, (loadPaiements sv s).1.paiements.count p = if p ∈ P then 1 else 0 := by
  have hperm : (loadPaiements sv s).1.paiements.Perm P := by
    simp only [loadPaiements, hquery, backendPaiementsByStatus, catchWith]
    exact filter3_perm _ _ _ P (fun p hp => status_cases p (hstatus p hp))
  refine ⟨hperm, hperm.nodup_iff.mpr hnodup, fun p => ?_⟩
  rw [hperm.count_eq]
  by_cases hp : p ∈ P
  · rw [if_pos hp]; exact List.count_eq_one_of_mem hnodup hp
  · rw [if_neg hp]; exact List.count_eq_zero_of_not_mem hp

theorem C3_partition_merge_witness :
    (loadPaiements
        { usersFailServices with
          getPaiementsByStatus := backendPaiementsByStatus
            [ { id := some "p1", status := some "SUCCES" },
              { id := some "p2", status := some "EN_ATTENTE" } ] }
        { }).1.paiements.Perm
      [ { id := some "p1", status := some "SUCCES" },
        { id := some "p2", status := some "EN_ATTENTE" } ] :=
  (C3_partition_merge
    [ { id := some "p1", status := some "SUCCES" },
      { id := some "p2", status := some "EN_ATTENTE" } ]
    { usersFailServices with
      getPaiementsByStatus := backendPaiementsByStatus
        [ { id := some "p1", status := some "SUCCES" },
          { id := some "p2", status := some "EN_ATTENTE" } ] }
    { } (by decide) (by decide) rfl).1

/-! ### Payment statistics fallback -/

theorem loadPaiements_stats (sv : Services) (s : State) (a b c : List Paiement)
    (ha : catchWith (sv.getPaiementsByStatus "EN_ATTENTE") (some []) = some a)
    (hb : catchWith (sv.getPaiementsByStatus "SUCCES") (some []) = some b)
    (hc : catchWith (sv.getPaiementsByStatus "ECHOUE") (some []) = some c) :
    (loadPaiements sv s).1.paiementStats = catchWith sv.getStats none := by
  simp [loadPaiements, ha, hb, hc]

/-- C9: `computedStats.paiements` is never `null`: it is the loaded stats record when
`paiementStats` holds one, and the all-zero five-field record when `paiementStats` is `null`;
`paiementStats` is `null` initially, and after a `loadPaiements` that stored its results with
the stats call rejected or resolved with nothing. -/
theorem C9_paiement_stats_fallback :
    (∀ (produits : List Produit) (users : List User) (orders : List Order)
        (ps : Option PaiementStats),
      (computedStats produits users orders ps).paiements ≠ none
        ∧ (∀ r, ps = some r → (computedStats produits users orders ps).paiements = some r)
        ∧ (ps = none →
            (computedStats produits users orders ps).paiements = some zeroPaiementStats))
    ∧ (zeroPaiementStats.totalPaiements = 0 ∧ zeroPaiementStats.paiementsSucces = 0
        ∧ zeroPaiementStats.paiementsEnAttente = 0 ∧ zeroPaiementStats.paiementsEchoue = 0
        ∧ zeroPaiementStats.montantTotal = 0)
    ∧ ({ } : State).paiementStats = none
    ∧ (∀ (sv : Services) (s : State) (a b c : List Paiement),
        catchWith (sv.getPaiementsByStatus "EN_ATTENTE") (some []) = some a →
        catchWith (sv.getPaiementsByStatus "SUCCES") (some []) = some b →
        catchWith (sv.getPaiementsByStatus "ECHOUE") (some []) = some c →
        ((∃ error, sv.getStats = Outcome.rejected error) ∨ sv.getStats = Outcome.resolved none) →
        (computedStats (loadPaiements sv s).1.produits (loadPaiements sv s).1.users
            (loadPaiements sv s).1.orders (loadPaiements sv s).1.paiementStats).paiements
          = some zeroPaiementStats) := by
  refine ⟨?_, ⟨rfl, rfl, rfl, rfl, rfl⟩, rfl, ?_⟩
  · intro produits users orders ps
    cases ps with
    | none => simp [computedStats, orElse]
    | some r => simp [computedStats, orElse]
  · intro sv s a b c ha hb hc hstats
    rw [loadPaiements_stats sv s a b c ha hb hc]
    rcases hstats with ⟨error, h⟩ | h <;> simp [h, catchWith, computedStats, orElse]

theorem C9_paiement_stats_fallback_witness :
    (computedStats [] [] [] (some zeroPaiementStats)).paiements = some zeroPaiementStats
      ∧ (computedStats [] [] [] none).paiements = some zeroPaiementStats
      ∧ (computedStats (loadPaiements statsFailServices staleUsersState).1.produits
            (loadPaiements statsFailServices staleUsersState).1.users
            (loadPaiements statsFailServices staleUsersState).1.orders
            (loadPaiements statsFailServices staleUsersState).1.paiementStats).paiements
          = some zeroPaiementStats :=
  ⟨(C9_paiement_stats_fallback.1 [] [] [] (some zeroPaiementStats)).2.1 zeroPaiementStats rfl,
   (C9_paiement_stats_fallback.1 [] [] [] none).2.2 rfl,
   C9_paiement_stats_fallback.2.2.2 statsFailServices staleUsersState [] [] []
     rfl rfl rfl (Or.inl ⟨"503", rfl⟩)⟩

/-! ### Role partition -/

theorem filter3_length {α : Type} (p q r : α → Bool) (l : List α)
    (h : ∀ x ∈ l, (p x = true ∧ q x = false ∧ r x = false)
      ∨ (p x = false ∧ q x = true ∧ r x = false)
      ∨ (p x = false ∧ q x = false ∧ r x = true)) :
    (l.filter p).length + (l.filter q).length + (l.filter r).length = l.length := by
  have hperm := (filter3_perm p q r l h).length_eq
  simpa only [List.length_append] using hperm

theorem role_cases (u : User)
    (h : u.role = some "CLIENT" ∨ u.role = some "VENDEUR" ∨ u.role = some "ADMIN") :
    ((u.role == some "CLIENT") = true ∧ (u.role == some "VENDEUR") = false
        ∧ (u.role == some "ADMIN") = false)
      ∨ ((u.role == some "CLIENT") = false ∧ (u.role == some "VENDEUR") = true
        ∧ (u.role == some "ADMIN") = false)
      ∨ ((u.role == some "CLIENT") = false ∧ (u.role == some "VENDEUR") = false
        ∧ (u.role == some "ADMIN") = true) := by
  rcases h with h | h | h <;> rw [h] <;> decide

/-- C10: when every user's role is one of CLIENT, VENDEUR, ADMIN, the three role counts of
`computedStats.users` add up to `total`, and each user satisfies exactly one of the three
counting predicates. -/
theorem C10_role_partition (produits : List Produit) (users : List User) (orders : List Order)
    (ps : Option PaiementStats)
    (hrole : ∀ u ∈ users,
      u.role = some "CLIENT" ∨ u.role = some "VENDEUR" ∨ u.role = some "ADMIN") :
    (computedStats produits users orders ps).users.clients
        + (computedStats produits users orders ps).users.vendeurs
        + (computedStats produits users orders ps).users.admins
      = (computedStats produits users orders ps).users.total
    ∧ ∀ u ∈ users,
        (if u.role == some "CLIENT" then 1 else 0)
          + (if u.role == some "VENDEUR" then 1 else 0)
          + (if u.role == some "ADMIN" then 1 else 0) = 1 := by
  constructor
  · exact filter3_length _ _ _ users (fun u hu => role_cases u (hrole u hu))
  · intro u hu
    rcases role_cases u (hrole u hu) with ⟨h1, h2, h3⟩ | ⟨h1, h2, h3⟩ | ⟨h1, h2, h3⟩ <;>
      simp [h1, h2, h3]

theorem C10_role_partition_witness :
    (computedStats []
        [{ role := some "ADMIN" }, { role := some "CLIENT" }, { role := some "CLIENT" }]
        [] none).users.clients
      + (computedStats []
        [{ role := some "ADMIN" }, { role := some "CLIENT" }, { role := some "CLIENT" }]
        [] none).users.vendeurs
      + (computedStats []
        [{ role := some "ADMIN" }, { role := some "CLIENT" }, { role := some "CLIENT" }]
        [] none).users.admins
      = (computedStats []
        [{ role := some "ADMIN" }, { role := some "CLIENT" }, { role := some "CLIENT" }]
        [] none).users.total :=
  (C10_role_partition []
    [{ role := some "ADMIN" }, { role := some "CLIENT" }, { role := some "CLIENT" }] [] none
    (by decide)).1

/-! ### Filter identity and idempotence -/

theorem filterByDate_eq_filter {α : Type} (rt : Runtime) (dateFilter : String)
    (now filterDate : Int) (createdAt : α → JsValue) (items : List α) :
    filterByDate rt dateFilter now filterDate createdAt items
      = items.filter (dateKeep rt dateFilter now filterDate createdAt) := by
  unfold filterByDate dateKeep
  by_cases h1 : dateFilter = "all"
  · simp [h1]
  · by_cases h2 : dateFilter = "today"
    · simp [h1, h2]
    · by_cases h3 : dateFilter = "week"
      · simp [h1, h2, h3]
      · by_cases h4 : dateFilter = "month"
        · simp [h1, h2, h3, h4]
        · simp [h1, h2, h3, h4]

theorem filter_idem {α : Type} (p : α → Bool) (l : List α) :
    (l.filter p).filter p = l.filter p := by
  rw [List.filter_filter]; simp

theorem filter2_idem {α : Type} (p q : α → Bool) (l : List α) :
    (((l.filter p).filter q).filter p).filter q = (l.filter p).filter q := by
  simp only [List.filter_filter]
  congr 1
  funext x
  cases p x <;> cases q x <;> rfl

/-- C4: with `searchQuery = ''`, `statusFilter = ''` and `dateFilter = 'all'` each of the four
views returns its snapshot list unchanged, whatever the properties of its elements. -/
theorem C4_empty_filter_identity (rt : Runtime) (now filterDate : Int) :
    (∀ produits : List Produit, filteredProduits rt "" "" produits = produits)
    ∧ (∀ users : List User, filteredUsers rt "" "" users = users)
    ∧ (∀ orders : List Order, filteredOrders rt "" "" "all" now filterDate orders = orders)
    ∧ (∀ paiements : List Paiement,
        filteredPaiements rt "" "" "all" now filterDate paiements = paiements) := by
  refine ⟨?_, ?_, ?_, ?_⟩
  · intro l
    simp [filteredProduits, keepProduit]
  · intro l
    simp [filteredUsers, keepUser]
  · intro l
    simp [filteredOrders, keepOrder, filterByDate]
  · intro l
    simp [filteredPaiements, keepPaiement, filterByDate]

/-- C5: for each of the four views and every search query, status filter, date bucket and
fixed pair of clock readings, filtering the view's output again gives the same list. -/
theorem C5_filter_idempotent (rt : Runtime) (searchQuery statusFilter dateFilter : String)
    (now filterDate : Int) :
    (∀ produits : List Produit,
      filteredProduits rt searchQuery statusFilter
          (filteredProduits rt searchQuery statusFilter produits)
        = filteredProduits rt searchQuery statusFilter produits)
    ∧ (∀ users : List User,
      filteredUsers rt searchQuery statusFilter (filteredUsers rt searchQuery statusFilter users)
        = filteredUsers rt searchQuery statusFilter users)
    ∧ (∀ orders : List Order,
      filteredOrders rt searchQuery statusFilter dateFilter now filterDate
          (filteredOrders rt searchQuery statusFilter dateFilter now filterDate orders)
        = filteredOrders rt searchQuery statusFilter dateFilter now filterDate orders)
    ∧ (∀ paiements : List Paiement,
      filteredPaiements rt searchQuery statusFilter dateFilter now filterDate
          (filteredPaiements rt searchQuery statusFilter dateFilter now filterDate paiements)
        = filteredPaiements rt searchQuery statusFilter dateFilter now filterDate paiements) := by
  refine ⟨?_, ?_, ?_, ?_⟩
  · intro l
    exact filter_idem _ l
  · intro l
    exact filter_idem _ l
  · intro l
    simp only [filteredOrders, filterByDate_eq_filter]
    exact filter2_idem _ _ l
  · intro l
    simp only [filteredPaiements, filterByDate_eq_filter]
    exact filter2_idem _ _ l

/-! ### The calendar functions meet their ECMAScript definitions -/

theorem dayFromYear_mono (y z : Int) (h : y ≤ z) : dayFromYear y ≤ dayFromYear z := by
  unfold dayFromYear
  omega

/-- The year found by `yearFromDay` starts on or before day `d` and the next year after it. -/
theorem yearFromDay_spec (d : Int) :
    dayFromYear (yearFromDay d) ≤ d ∧ d < dayFromYear (yearFromDay d + 1) := by
  unfold yearFromDay
  generalize hy : 1970 + d * 400 / 146097 = y
  dsimp only
  by_cases h1 : dayFromYear (y + 1) ≤ d
  · rw [if_pos h1]
    refine ⟨h1, ?_⟩
    unfold dayFromYear at h1 ⊢
    omega
  · rw [if_neg h1]
    by_cases h2 : d < dayFromYear y
    · rw [if_pos h2, sub_add_cancel]
      refine ⟨?_, h2⟩
      unfold dayFromYear at h2 ⊢
      omega
    · rw [if_neg h2]
      exact ⟨not_lt.mp h2, not_le.mp h1⟩

/-- The year found by `yearFromDay` is the largest one that starts on or before day `d`. -/
theorem yearFromDay_largest (d y : Int) (h : dayFromYear y ≤ d) : y ≤ yearFromDay d := by
  by_contra hlt
  have hle : yearFromDay d + 1 ≤ y := by omega
  have h1 := dayFromYear_mono _ _ hle
  have h2 := (yearFromDay_spec d).2
  omega

theorem dayFromYear_succ (y : Int) :
    dayFromYear (y + 1) = dayFromYear y + 365 + inLeapYear y := by
  unfold dayFromYear inLeapYear
  split_ifs <;> omega

theorem dayWithinYear_range (t : Int) :
    0 ≤ dayWithinYear t ∧ dayWithinYear t < 365 + inLeapYear (yearFromTime t) := by
  have h := yearFromDay_spec (day t)
  rw [dayFromYear_succ] at h
  unfold dayWithinYear yearFromTime
  omega

theorem inLeapYear_cases (y : Int) : inLeapYear y = 0 ∨ inLeapYear y = 1 := by
  unfold inLeapYear
  split_ifs
  · exact Or.inr rfl
  · exact Or.inl rfl

/-- The day of the month lies between 1 and 31. -/
theorem dateFromTime_range (t : Int) : 1 ≤ dateFromTime t ∧ dateFromTime t ≤ 31 := by
  have hr := dayWithinYear_range t
  have hl := inLeapYear_cases (yearFromTime t)
  unfold dateFromTime monthFromTime
  generalize dayWithinYear t = d at hr ⊢
  generalize inLeapYear (yearFromTime t) = l at hr hl ⊢
  dsimp only
  by_cases h0 : d < 31
  · rw [if_pos h0]; simp only [monthStart]; norm_num; omega
  rw [if_neg h0]
  by_cases h1 : d < 59 + l
  · rw [if_pos h1]; simp only [monthStart]; norm_num; omega
  rw [if_neg h1]
  by_cases h2 : d < 90 + l
  · rw [if_pos h2]; simp only [monthStart]; norm_num; omega
  rw [if_neg h2]
  by_cases h3 : d < 120 + l
  · rw [if_pos h3]; simp only [monthStart]; norm_num; omega
  rw [if_neg h3]
  by_cases h4 : d < 151 + l
  · rw [if_pos h4]; simp only [monthStart]; norm_num; omega
  rw [if_neg h4]
  by_cases h5 : d < 181 + l
  · rw [if_pos h5]; simp only [monthStart]; norm_num; omega
  rw [if_neg h5]
  by_cases h6 : d < 212 + l
  · rw [if_pos h6]; simp only [monthStart]; norm_num; omega
  rw [if_neg h6]
  by_cases h7 : d < 243 + l
  · rw [if_pos h7]; simp only [monthStart]; norm_num; omega
  rw [if_neg h7]
  by_cases h8 : d < 273 + l
  · rw [if_pos h8]; simp only [monthStart]; norm_num; omega
  rw [if_neg h8]
  by_cases h9 : d < 304 + l
  · rw [if_pos h9]; simp only [monthStart]; norm_num; omega
  rw [if_neg h9]
  by_cases h10 : d < 334 + l
  · rw [if_pos h10]; simp only [monthStart]; norm_num; omega
  rw [if_neg h10]
  simp only [monthStart]; norm_num; omega

/-! ### Date buckets -/

theorem monthFromTime_range (t : Int) : 0 ≤ monthFromTime t ∧ monthFromTime t ≤ 11 := by
  generalize hm : monthFromTime t = m
  unfold monthFromTime at hm
  generalize dayWithinYear t = d at hm
  generalize inLeapYear (yearFromTime t) = l at hm
  dsimp only at hm
  by_cases h0 : d < 31
  · rw [if_pos h0] at hm; omega
  rw [if_neg h0] at hm
  by_cases h1 : d < 59 + l
  · rw [if_pos h1] at hm; omega
  rw [if_neg h1] at hm
  by_cases h2 : d < 90 + l
  · rw [if_pos h2] at hm; omega
  rw [if_neg h2] at hm
  by_cases h3 : d < 120 + l
  · rw [if_pos h3] at hm; omega
  rw [if_neg h3] at hm
  by_cases h4 : d < 151 + l
  · rw [if_pos h4] at hm; omega
  rw [if_neg h4] at hm
  by_cases h5 : d < 181 + l
  · rw [if_pos h5] at hm; omega
  rw [if_neg h5] at hm
  by_cases h6 : d < 212 + l
  · rw [if_pos h6] at hm; omega
  rw [if_neg h6] at hm
  by_cases h7 : d < 243 + l
  · rw [if_pos h7] at hm; omega
  rw [if_neg h7] at hm
  by_cases h8 : d < 273 + l
  · rw [if_pos h8] at hm; omega
  rw [if_neg h8] at hm
  by_cases h9 : d < 304 + l
  · rw [if_pos h9] at hm; omega
  rw [if_neg h9] at hm
  by_cases h10 : d < 334 + l
  · rw [if_pos h10] at hm; omega
  rw [if_neg h10] at hm
  omega

/-- Setting the date to the current day of the month plus `k` moves the day number by `k`. -/
theorem makeDay_shift (t k : Int) :
    makeDay (yearFromTime t) (monthFromTime t) (dateFromTime t + k) = day t + k := by
  obtain ⟨h0, h11⟩ := monthFromTime_range t
  have hdiv : monthFromTime t / 12 = 0 := by omega
  have hmod : monthFromTime t % 12 = monthFromTime t := by omega
  simp only [makeDay, hdiv, hmod, add_zero, dateFromTime, dayWithinYear]
  omega

theorem setDate_shift (rt : Runtime) (now k : Int) :
    setDate rt now (getDate rt now + k) = timeClip (now + k * msPerDay) := by
  unfold setDate getDate
  simp only [makeDay_shift, makeDate, utc, localTime, day, timeWithinDay, msPerDay]
  congr 1
  omega

theorem timeClip_eq_some (t u : Int) (h : timeClip t = some u) :
    u = t ∧ -8640000000000000 ≤ t ∧ t ≤ 8640000000000000 := by
  unfold timeClip at h
  split_ifs at h with hr
  exact ⟨(Option.some.inj h).symm, hr.1, hr.2⟩

theorem newDate_eq_some (rt : Runtime) (v : JsValue) (u : Int) (h : newDate rt v = some u) :
    timeClip u = some u := by
  have key : ∀ t, timeClip t = some u → timeClip u = some u := by
    intro t ht
    obtain ⟨hu, _, _⟩ := timeClip_eq_some t u ht
    rw [hu]; exact hu ▸ ht
  cases v with
  | undefined => simp [newDate] at h
  | null => exact key 0 h
  | number ms => exact key ms h
  | string str =>
    simp only [newDate] at h
    cases hp : rt.parse str with
    | none => simp [hp] at h
    | some t => rw [hp] at h; exact key t h

theorem setHoursZero_gt (rt : Runtime) (now b : Int) (h : setHoursZero rt now = some b) :
    now - msPerDay < b := by
  unfold setHoursZero at h
  obtain ⟨hb, _, _⟩ := timeClip_eq_some _ _ h
  simp only [makeDate, makeTime, utc, localTime, day, msPerDay] at hb ⊢
  omega

theorem mem_filterByDate {α : Type} (rt : Runtime) (dateFilter : String) (now filterDate : Int)
    (createdAt : α → JsValue) (items : List α) (item : α) :
    item ∈ filterByDate rt dateFilter now filterDate createdAt items
      ↔ item ∈ items ∧ dateKeep rt dateFilter now filterDate createdAt item = true := by
  rw [filterByDate_eq_filter, List.mem_filter]

/-- C6: with both clock readings equal to `now` and a fixed zone offset, an item whose
`createdAt` is the instant exactly 7 days before `now` is kept by `filterByDate` under `'week'`
and dropped under `'today'`. -/
theorem C6_week_boundary {α : Type} (rt : Runtime) (now : Int) (createdAt : α → JsValue)
    (items : List α) (item : α) (hmem : item ∈ items)
    (hcreated : newDate rt (createdAt item) = some (now - 7 * msPerDay)) :
    item ∈ filterByDate rt "week" now now createdAt items
      ∧ item ∉ filterByDate rt "today" now now createdAt items := by
  have hclip := newDate_eq_some rt _ _ hcreated
  constructor
  · rw [mem_filterByDate]
    refine ⟨hmem, ?_⟩
    have hset : setDate rt now (getDate rt now - 7) = some (now - 7 * msPerDay) := by
      have := setDate_shift rt now (-7)
      simp only [Int.neg_mul] at this
      rw [← sub_eq_add_neg, ← sub_eq_add_neg] at this
      rw [this, hclip]
    simp [dateKeep, hcreated, hset, dateGe]
  · rw [mem_filterByDate]
    rintro ⟨_, hkeep⟩
    simp only [dateKeep, hcreated] at hkeep
    cases hz : setHoursZero rt now with
    | none => simp [hz, dateGe] at hkeep
    | some b =>
      have hgt := setHoursZero_gt rt now b hz
      simp only [hz, dateGe, String.reduceEq, if_false, if_true, decide_eq_true_eq] at hkeep
      simp only [msPerDay] at hgt hkeep
      omega

theorem C6_week_boundary_witness :
    ({ id := some "o1", createdAt := JsValue.string "2024-03-08T12:00:00" } : Order)
        ∈ filterByDate utcRuntime "week" march15Noon march15Noon Order.createdAt
            [{ id := some "o1", createdAt := JsValue.string "2024-03-08T12:00:00" }]
      ∧ ({ id := some "o1", createdAt := JsValue.string "2024-03-08T12:00:00" } : Order)
        ∉ filterByDate utcRuntime "today" march15Noon march15Noon Order.createdAt
            [{ id := some "o1", createdAt := JsValue.string "2024-03-08T12:00:00" }] :=
  C6_week_boundary utcRuntime march15Noon Order.createdAt
    [{ id := some "o1", createdAt := JsValue.string "2024-03-08T12:00:00" }]
    { id := some "o1", createdAt := JsValue.string "2024-03-08T12:00:00" }
    (List.mem_singleton.mpr rfl) (by decide)

/-- C7 fails on the code: on 2024-03-31T12:00:00 the `'month'` bucket sets the month to
February while keeping day 31, which carries over to 2024-03-02T12:00:00; an order created on
2024-03-01T00:00:00, later than one calendar month before now (2024-02-29T12:00:00), is
dropped. -/
theorem C7_month_day_overflow :
    utcRuntime.parse "2024-03-31T12:00:00" = some march31Noon
      ∧ setMonth utcRuntime march31Noon (getMonth utcRuntime march31Noon - 1)
          = utcRuntime.parse "2024-03-02T12:00:00"
      ∧ oneCalendarMonthBefore utcRuntime march31Noon = utcRuntime.parse "2024-02-29T12:00:00"
      ∧ dateGe (newDate utcRuntime (JsValue.string "2024-03-01T00:00:00"))
          (oneCalendarMonthBefore utcRuntime march31Noon) = true
      ∧ filterByDate utcRuntime "month" march31Noon march31Noon Order.createdAt
          [{ id := some "o1", createdAt := JsValue.string "2024-03-01T00:00:00" }] = [] := by
  decide

/-- C8: under `'today'`, `'week'` and `'month'`, `filterByDate` (a total function) drops every
item whose `createdAt` gives an Invalid Date, which is the case when the property is absent or
is a string that `Date.parse` rejects; under `'all'` the list is returned as it is, so such an
item is kept. -/
theorem C8_invalid_date_dropped {α : Type} (rt : Runtime) (now filterDate : Int)
    (createdAt : α → JsValue) (items : List α) :
    (∀ dateFilter, dateFilter = "today" ∨ dateFilter = "week" ∨ dateFilter = "month" →
      ∀ item, newDate rt (createdAt item) = none →
        item ∉ filterByDate rt dateFilter now filterDate createdAt items)
    ∧ newDate rt JsValue.undefined = none
    ∧ (∀ str, rt.parse str = none → newDate rt (JsValue.string str) = none)
    ∧ filterByDate rt "all" now filterDate createdAt items = items := by
  refine ⟨?_, rfl, ?_, ?_⟩
  · intro dateFilter hb item hinvalid hin
    rw [mem_filterByDate] at hin
    obtain ⟨_, hkeep⟩ := hin
    rcases hb with h | h | h <;> simp [dateKeep, h, hinvalid, dateGe] at hkeep
  · intro str hstr
    simp [newDate, hstr]
  · simp [filterByDate]

theorem C8_invalid_date_dropped_witness :
    ({ id := some "o1" } : Order)
        ∉ filterByDate utcRuntime "week" march15Noon march15Noon Order.createdAt
            [{ id := some "o1" }, { id := some "o2", createdAt := JsValue.string "hier" }]
      ∧ ({ id := some "o2", createdAt := JsValue.string "hier" } : Order)
        ∉ filterByDate utcRuntime "month" march15Noon march15Noon Order.createdAt
            [{ id := some "o1" }, { id := some "o2", createdAt := JsValue.string "hier" }] :=
  ⟨(C8_invalid_date_dropped utcRuntime march15Noon march15Noon Order.createdAt
      [{ id := some "o1" }, { id := some "o2", createdAt := JsValue.string "hier" }]).1
      "week" (Or.inr (Or.inl rfl)) { id := some "o1" } rfl,
   (C8_invalid_date_dropped utcRuntime march15Noon march15Noon Order.createdAt
      [{ id := some "o1" }, { id := some "o2", createdAt := JsValue.string "hier" }]).1
      "month" (Or.inr (Or.inr rfl)) { id := some "o2", createdAt := JsValue.string "hier" }
      (by decide)⟩

/-! ### Text and status predicates -/

theorem keepProduit_eq (rt : Runtime) (searchQuery statusFilter : String) (p : Produit) :
    keepProduit rt searchQuery statusFilter p
      = (matchSearchProduit rt searchQuery p && matchStatus statusFilter p.status) := rfl

theorem keepUser_eq (rt : Runtime) (searchQuery statusFilter : String) (u : User) :
    keepUser rt searchQuery statusFilter u
      = (matchSearchUser rt searchQuery u && matchStatus statusFilter u.role) := rfl

theorem keepOrder_eq (rt : Runtime) (searchQuery statusFilter : String) (o : Order) :
    keepOrder rt searchQuery statusFilter o
      = (matchSearchOrder rt searchQuery o && matchStatus statusFilter o.orderStatus) := rfl

theorem keepPaiement_eq (rt : Runtime) (searchQuery statusFilter : String) (p : Paiement) :
    keepPaiement rt searchQuery statusFilter p
      = (matchSearchPaiement rt searchQuery p && matchStatus statusFilter p.status) := rfl

/-- A field satisfies the search when it is present and its lower-cased value contains the
lower-cased query. -/
theorem fieldIncludes_iff (rt : Runtime) (field : Option String) (q : String) :
    fieldIncludes rt field q = true
      ↔ ∃ v, field = some v ∧ (rt.toLowerCase q).toList <:+: (rt.toLowerCase v).toList := by
  cases field with
  | none => simp [fieldIncludes]
  | some v => simp [fieldIncludes, includes]

theorem fieldIncludes_congr (rt : Runtime) (field : Option String) (q q' : String)
    (h : rt.toLowerCase q' = rt.toLowerCase q) :
    fieldIncludes rt field q' = fieldIncludes rt field q := by
  cases field with
  | none => rfl
  | some v => simp [fieldIncludes, h]

theorem matchStatus_iff (statusFilter : String) (field : Option String) :
    matchStatus statusFilter field = true ↔ statusFilter = "" ∨ field = some statusFilter := by
  simp [matchStatus]

theorem matchSearchProduit_iff (rt : Runtime) (q : String) (hq : q ≠ "") (p : Produit) :
    matchSearchProduit rt q p = true
      ↔ ∃ v, (p.titre = some v ∨ p.categorie = some v)
          ∧ (rt.toLowerCase q).toList <:+: (rt.toLowerCase v).toList := by
  simp only [matchSearchProduit, hq, decide_False, Bool.false_or, Bool.or_eq_true,
    fieldIncludes_iff]
  constructor
  · rintro (⟨v, hv, h⟩ | ⟨v, hv, h⟩)
    · exact ⟨v, Or.inl hv, h⟩
    · exact ⟨v, Or.inr hv, h⟩
  · rintro ⟨v, hv | hv, h⟩
    · exact Or.inl ⟨v, hv, h⟩
    · exact Or.inr ⟨v, hv, h⟩

theorem matchSearchUser_iff (rt : Runtime) (q : String) (hq : q ≠ "") (u : User) :
    matchSearchUser rt q u = true
      ↔ ∃ v, (u.email = some v ∨ u.prenom = some v ∨ u.nom = some v)
          ∧ (rt.toLowerCase q).toList <:+: (rt.toLowerCase v).toList := by
  simp only [matchSearchUser, hq, decide_False, Bool.false_or, Bool.or_eq_true,
    fieldIncludes_iff]
  constructor
  · rintro ((⟨v, hv, h⟩ | ⟨v, hv, h⟩) | ⟨v, hv, h⟩)
    · exact ⟨v, Or.inl hv, h⟩
    · exact ⟨v, Or.inr (Or.inl hv), h⟩
    · exact ⟨v, Or.inr (Or.inr hv), h⟩
  · rintro ⟨v, hv | hv | hv, h⟩
    · exact Or.inl (Or.inl ⟨v, hv, h⟩)
    · exact Or.inl (Or.inr ⟨v, hv, h⟩)
    · exact Or.inr ⟨v, hv, h⟩

theorem matchSearchOrder_iff (rt : Runtime) (q : String) (hq : q ≠ "") (o : Order) :
    matchSearchOrder rt q o = true
      ↔ ∃ v, (o.id = some v ∨ o.userId = some v)
          ∧ (rt.toLowerCase q).toList <:+: (rt.toLowerCase v).toList := by
  simp only [matchSearchOrder, hq, decide_False, Bool.false_or, Bool.or_eq_true,
    fieldIncludes_iff]
  constructor
  · rintro (⟨v, hv, h⟩ | ⟨v, hv, h⟩)
    · exact ⟨v, Or.inl hv, h⟩
    · exact ⟨v, Or.inr hv, h⟩
  · rintro ⟨v, hv | hv, h⟩
    · exact Or.inl ⟨v, hv, h⟩
    · exact Or.inr ⟨v, hv, h⟩

theorem matchSearchPaiement_iff (rt : Runtime) (q : String) (hq : q ≠ "") (p : Paiement) :
    matchSearchPaiement rt q p = true
      ↔ ∃ v, (p.id = some v ∨ p.orderId = some v)
          ∧ (rt.toLowerCase q).toList <:+: (rt.toLowerCase v).toList := by
  simp only [matchSearchPaiement, hq, decide_False, Bool.false_or, Bool.or_eq_true,
    fieldIncludes_iff]
  constructor
  · rintro (⟨v, hv, h⟩ | ⟨v, hv, h⟩)
    · exact ⟨v, Or.inl hv, h⟩
    · exact ⟨v, Or.inr hv, h⟩
  · rintro ⟨v, hv | hv, h⟩
    · exact Or.inl ⟨v, hv, h⟩
    · exact Or.inr ⟨v, hv, h⟩

/-- C11: for a non-empty query `q`, an entity passes the text predicate of its view exactly
when the lower-cased `q` is a substring of the lower-cased value of one of the view's searched
fields that is present; the result depends on `q` and on a field only through their
lower-casing; an entity with none of the fields present fails; the empty query passes every
entity. -/
theorem C11_text_match (rt : Runtime) (q : String) (hq : q ≠ "") :
    ((∀ p : Produit, matchSearchProduit rt q p = true
        ↔ ∃ v, (p.titre = some v ∨ p.categorie = some v)
            ∧ (rt.toLowerCase q).toList <:+: (rt.toLowerCase v).toList)
      ∧ (∀ u : User, matchSearchUser rt q u = true
        ↔ ∃ v, (u.email = some v ∨ u.prenom = some v ∨ u.nom = some v)
            ∧ (rt.toLowerCase q).toList <:+: (rt.toLowerCase v).toList)
      ∧ (∀ o : Order, matchSearchOrder rt q o = true
        ↔ ∃ v, (o.id = some v ∨ o.userId = some v)
            ∧ (rt.toLowerCase q).toList <:+: (rt.toLowerCase v).toList)
      ∧ (∀ p : Paiement, matchSearchPaiement rt q p = true
        ↔ ∃ v, (p.id = some v ∨ p.orderId = some v)
            ∧ (rt.toLowerCase q).toList <:+: (rt.toLowerCase v).toList))
    ∧ (∀ q' : String, q' ≠ "" → rt.toLowerCase q' = rt.toLowerCase q →
        (∀ p : Produit, matchSearchProduit rt q' p = matchSearchProduit rt q p)
        ∧ (∀ u : User, matchSearchUser rt q' u = matchSearchUser rt q u)
        ∧ (∀ o : Order, matchSearchOrder rt q' o = matchSearchOrder rt q o)
        ∧ (∀ p : Paiement, matchSearchPaiement rt q' p = matchSearchPaiement rt q p))
    ∧ (∀ v v' : String, rt.toLowerCase v' = rt.toLowerCase v →
        fieldIncludes rt (some v') q = fieldIncludes rt (some v) q)
    ∧ ((∀ p : Produit, p.titre = none → p.categorie = none → matchSearchProduit rt q p = false)
      ∧ (∀ u : User, u.email = none → u.prenom = none → u.nom = none →
          matchSearchUser rt q u = false)
      ∧ (∀ o : Order, o.id = none → o.userId = none → matchSearchOrder rt q o = false)
      ∧ (∀ p : Paiement, p.id = none → p.orderId = none → matchSearchPaiement rt q p = false))
    ∧ ((∀ p : Produit, matchSearchProduit rt "" p = true)
      ∧ (∀ u : User, matchSearchUser rt "" u = true)
      ∧ (∀ o : Order, matchSearchOrder rt "" o = true)
      ∧ (∀ p : Paiement, matchSearchPaiement rt "" p = true)) := by
  refine ⟨⟨matchSearchProduit_iff rt q hq, matchSearchUser_iff rt q hq,
    matchSearchOrder_iff rt q hq, matchSearchPaiement_iff rt q hq⟩, ?_, ?_, ?_, ?_⟩
  · intro q' hq' hlow
    refine ⟨fun p => ?_, fun u => ?_, fun o => ?_, fun p => ?_⟩
    · simp only [matchSearchProduit, hq, hq', fieldIncludes_congr rt _ q q' hlow]
    · simp only [matchSearchUser, hq, hq', fieldIncludes_congr rt _ q q' hlow]
    · simp only [matchSearchOrder, hq, hq', fieldIncludes_congr rt _ q q' hlow]
    · simp only [matchSearchPaiement, hq, hq', fieldIncludes_congr rt _ q q' hlow]
  · intro v v' hlow
    simp only [fieldIncludes, hlow]
  · refine ⟨fun p h1 h2 => ?_, fun u h1 h2 h3 => ?_, fun o h1 h2 => ?_, fun p h1 h2 => ?_⟩
    · simp [matchSearchProduit, hq, h1, h2, fieldIncludes]
    · simp [matchSearchUser, hq, h1, h2, h3, fieldIncludes]
    · simp [matchSearchOrder, hq, h1, h2, fieldIncludes]
    · simp [matchSearchPaiement, hq, h1, h2, fieldIncludes]
  · refine ⟨fun p => ?_, fun u => ?_, fun o => ?_, fun p => ?_⟩
    · simp [matchSearchProduit]
    · simp [matchSearchUser]
    · simp [matchSearchOrder]
    · simp [matchSearchPaiement]

theorem C11_text_match_witness :
    matchSearchProduit utcRuntime "CHAUSS" { titre := some "Chaussures de sport" } = true
      ∧ matchSearchProduit utcRuntime "chauss" { titre := some "Chaussures de sport" }
          = matchSearchProduit utcRuntime "CHAUSS" { titre := some "Chaussures de sport" }
      ∧ matchSearchOrder utcRuntime "CHAUSS" { orderStatus := some "LIVRE" } = false :=
  ⟨((C11_text_match utcRuntime "CHAUSS" (by decide)).1.1
      { titre := some "Chaussures de sport" }).mpr
      ⟨"Chaussures de sport", Or.inl rfl, by decide⟩,
   ((C11_text_match utcRuntime "CHAUSS" (by decide)).2.1 "chauss" (by decide) (by decide)).1
      { titre := some "Chaussures de sport" },
   (C11_text_match utcRuntime "CHAUSS" (by decide)).2.2.2.1.2.2.1
      { orderStatus := some "LIVRE" } rfl rfl⟩

/-! ### The views as restrictions of the snapshot -/

theorem filteredOrders_eq_filter (rt : Runtime) (q sf df : String) (now filterDate : Int)
    (orders : List Order) :
    filteredOrders rt q sf df now filterDate orders
      = orders.filter (fun o => dateKeep rt df now filterDate Order.createdAt o
          && (matchSearchOrder rt q o && matchStatus sf o.orderStatus)) := by
  simp only [filteredOrders, filterByDate_eq_filter, List.filter_filter]
  congr 1
  funext o
  rw [keepOrder_eq, Bool.and_comm]

theorem filteredPaiements_eq_filter (rt : Runtime) (q sf df : String) (now filterDate : Int)
    (paiements : List Paiement) :
    filteredPaiements rt q sf df now filterDate paiements
      = paiements.filter (fun p => dateKeep rt df now filterDate Paiement.createdAt p
          && (matchSearchPaiement rt q p && matchStatus sf p.status)) := by
  simp only [filteredPaiements, filterByDate_eq_filter, List.filter_filter]
  congr 1
  funext p
  rw [keepPaiement_eq, Bool.and_comm]

/-- C12: the visible orders and payments are the snapshot restricted, in source order, to the
elements that pass the date bucket, the text predicate and the status predicate together; the
visible products and users are the snapshot restricted to the elements that pass the text and
status predicates; the status predicate holds when `statusFilter` is empty or equals the
element's status field; each visible list is a sublist of its snapshot. -/
theorem C12_views_restrict_snapshot (rt : Runtime) (q sf df : String) (now filterDate : Int) :
    (∀ orders : List Order,
      filteredOrders rt q sf df now filterDate orders
          = orders.filter (fun o => dateKeep rt df now filterDate Order.createdAt o
              && (matchSearchOrder rt q o && matchStatus sf o.orderStatus))
        ∧ (filteredOrders rt q sf df now filterDate orders).Sublist orders)
    ∧ (∀ paiements : List Paiement,
      filteredPaiements rt q sf df now filterDate paiements
          = paiements.filter (fun p => dateKeep rt df now filterDate Paiement.createdAt p
              && (matchSearchPaiement rt q p && matchStatus sf p.status))
        ∧ (filteredPaiements rt q sf df now filterDate paiements).Sublist paiements)
    ∧ (∀ produits : List Produit,
      filteredProduits rt q sf produits
          = produits.filter (fun p => matchSearchProduit rt q p && matchStatus sf p.status)
        ∧ (filteredProduits rt q sf produits).Sublist produits)
    ∧ (∀ users : List User,
      filteredUsers rt q sf users
          = users.filter (fun u => matchSearchUser rt q u && matchStatus sf u.role)
        ∧ (filteredUsers rt q sf users).Sublist users)
    ∧ (∀ field : Option String,
      matchStatus sf field = true ↔ sf = "" ∨ field = some sf)
    ∧ (∀ (items : List Order) (o : Order),
      o ∈ filterByDate rt df now filterDate Order.createdAt items
        ↔ o ∈ items ∧ dateKeep rt df now filterDate Order.createdAt o = true)
    ∧ (∀ (items : List Paiement) (p : Paiement),
      p ∈ filterByDate rt df now filterDate Paiement.createdAt items
        ↔ p ∈ items ∧ dateKeep rt df now filterDate Paiement.createdAt p = true) := by
  refine ⟨fun orders => ⟨filteredOrders_eq_filter rt q sf df now filterDate orders, ?_⟩,
    fun paiements => ⟨filteredPaiements_eq_filter rt q sf df now filterDate paiements, ?_⟩,
    fun produits => ⟨rfl, List.filter_sublist produits⟩,
    fun users => ⟨rfl, List.filter_sublist users⟩,
    matchStatus_iff sf,
    fun items o => mem_filterByDate rt df now filterDate Order.createdAt items o,
    fun items p => mem_filterByDate rt df now filterDate Paiement.createdAt items p⟩
  · rw [filteredOrders_eq_filter]
    exact List.filter_sublist orders
  · rw [filteredPaiements_eq_filter]
    exact List.filter_sublist paiements

/-! ### Loading: frame properties of the four loaders -/

theorem loadPaiements_cases (sv : Services) (s : State) :
    (∃ a b c, (loadPaiements sv s).1
        = { s with paiements := a ++ b ++ c, paiementStats := catchWith sv.getStats none })
      ∨ (loadPaiements sv s).1 = logError "Erreur chargement paiements:" "TypeError" s := by
  unfold loadPaiements
  cases catchWith (sv.getPaiementsByStatus "EN_ATTENTE") (some []) with
  | none => exact Or.inr rfl
  | some a =>
    cases catchWith (sv.getPaiementsByStatus "SUCCES") (some []) with
    | none => exact Or.inr rfl
    | some b =>
      cases catchWith (sv.getPaiementsByStatus "ECHOUE") (some []) with
      | none => exact Or.inr rfl
      | some c => exact Or.inl ⟨a, b, c, rfl⟩

theorem loadUsers_produits (sv : Services) (s : State) :
    (loadUsers sv s).1.produits = s.produits := by
  unfold loadUsers; cases sv.getAllUsers <;> rfl

theorem loadOrders_produits (sv : Services) (s : State) :
    (loadOrders sv s).1.produits = s.produits := by
  unfold loadOrders; cases sv.getAllOrders <;> rfl

theorem loadPaiements_produits (sv : Services) (s : State) :
    (loadPaiements sv s).1.produits = s.produits := by
  rcases loadPaiements_cases sv s with ⟨a, b, c, h⟩ | h
  · rw [h]
  · rw [h]; rfl

theorem loadPaiements_orders (sv : Services) (s : State) :
    (loadPaiements sv s).1.orders = s.orders := by
  rcases loadPaiements_cases sv s with ⟨a, b, c, h⟩ | h
  · rw [h]
  · rw [h]; rfl

theorem loadProduits_notification (sv : Services) (s : State) :
    (loadProduits sv s).1.notification = s.notification := by
  unfold loadProduits; cases sv.getAllProduits <;> rfl

theorem loadUsers_notification (sv : Services) (s : State) :
    (loadUsers sv s).1.notification = s.notification := by
  unfold loadUsers; cases sv.getAllUsers <;> rfl

theorem loadOrders_notification (sv : Services) (s : State) :
    (loadOrders sv s).1.notification = s.notification := by
  unfold loadOrders; cases sv.getAllOrders <;> rfl

theorem loadPaiements_notification (sv : Services) (s : State) :
    (loadPaiements sv s).1.notification = s.notification := by
  rcases loadPaiements_cases sv s with ⟨a, b, c, h⟩ | h
  · rw [h]
  · rw [h]; rfl

theorem loadAllData_produits (sv : Services) (s : State) :
    (loadAllData sv s).produits = (loadProduits sv { s with loading := true }).1.produits := by
  rw [loadAllData_eq]
  show (loadPaiements sv _).1.produits = _
  rw [loadPaiements_produits, loadOrders_produits, loadUsers_produits]

theorem loadAllData_users (sv : Services) (s : State) :
    (loadAllData sv s).users
      = (loadUsers sv (loadProduits sv { s with loading := true }).1).1.users := by
  rw [loadAllData_eq]
  show (loadPaiements sv _).1.users = _
  rw [loadPaiements_users, loadOrders_users]

theorem loadAllData_orders (sv : Services) (s : State) :
    (loadAllData sv s).orders
      = (loadOrders sv (loadUsers sv (loadProduits sv { s with loading := true }).1).1).1.orders := by
  rw [loadAllData_eq]
  show (loadPaiements sv _).1.orders = _
  rw [loadPaiements_orders]

/-- C13: after `loadAllData`, each of `produits`, `users` and `orders` whose fetch resolved is
the fetched list, or the empty list when the service resolved with `null`/`undefined`,
whatever the prior state and whatever the other fetches did. -/
theorem C13_successful_fetch_replaces (sv : Services) (s : State) :
    (∀ data, sv.getAllProduits = Outcome.resolved data →
      (loadAllData sv s).produits = data.getD [])
    ∧ (∀ data, sv.getAllUsers = Outcome.resolved data →
      (loadAllData sv s).users = data.getD [])
    ∧ (∀ data, sv.getAllOrders = Outcome.resolved data →
      (loadAllData sv s).orders = data.getD []) := by
  refine ⟨fun data h => ?_, fun data h => ?_, fun data h => ?_⟩
  · rw [loadAllData_produits]
    simp only [loadProduits, h]
    cases data <;> rfl
  · rw [loadAllData_users]
    simp only [loadUsers, h]
    cases data <;> rfl
  · rw [loadAllData_orders]
    simp only [loadOrders, h]
    cases data <;> rfl

theorem C13_successful_fetch_replaces_witness :
    (loadAllData paiementsFailServices staleUsersState).produits
        = [{ id := some "p1", titre := some "Lampe" }]
      ∧ (loadAllData paiementsFailServices staleUsersState).users = []
      ∧ (loadAllData succesFailServices staleUsersState).users = [] :=
  ⟨(C13_successful_fetch_replaces paiementsFailServices staleUsersState).1 _ rfl,
   (C13_successful_fetch_replaces paiementsFailServices staleUsersState).2.1 none rfl,
   (C13_successful_fetch_replaces succesFailServices staleUsersState).2.1 (some []) rfl⟩

/-- C14: whatever service calls fail, none of the four loaders rejects, so the `catch` block of
`loadAllData` is not entered: `loadAllData` ends with `loading = false` and the notification
slot as it was. -/
theorem C14_loadAllData_silent (sv : Services) (s : State) :
    (loadAllData sv s).loading = false
      ∧ (loadAllData sv s).notification = s.notification
      ∧ (∀ s1 s2 s3 s4 : State,
          [(loadProduits sv s1).2, (loadUsers sv s2).2, (loadOrders sv s3).2,
            (loadPaiements sv s4).2].findSome? id = none) := by
  refine ⟨?_, ?_, ?_⟩
  · rw [loadAllData_eq]
  · rw [loadAllData_eq]
    show (loadPaiements sv _).1.notification = _
    rw [loadPaiements_notification, loadOrders_notification, loadUsers_notification,
      loadProduits_notification]
  · intro s1 s2 s3 s4
    simp [loadProduits_settles, loadUsers_settles, loadOrders_settles, loadPaiements_settles]

/-! ### Loading: what is logged and what is stored -/

theorem loadPaiements_of_arrays (sv : Services) (s : State) (a b c : List Paiement)
    (ha : catchWith (sv.getPaiementsByStatus "EN_ATTENTE") (some []) = some a)
    (hb : catchWith (sv.getPaiementsByStatus "SUCCES") (some []) = some b)
    (hc : catchWith (sv.getPaiementsByStatus "ECHOUE") (some []) = some c) :
    (loadPaiements sv s).1
      = { s with paiements := a ++ b ++ c, paiementStats := catchWith sv.getStats none } := by
  simp [loadPaiements, ha, hb, hc]

theorem catchWith_of_result {α : Type} (p : Outcome (List α)) (l : List α)
    (h : p = Outcome.resolved (some l) ∨ ((∃ error, p = Outcome.rejected error) ∧ l = [])) :
    catchWith p (some []) = some l := by
  rcases h with h | ⟨⟨error, h⟩, hl⟩
  · rw [h]; rfl
  · rw [h, hl]; rfl

/-- The log left by `loadAllData` when no status query resolves with `null`: one entry for each
failed fetch among products, users and orders, and none for the payment calls. -/
theorem loadAllData_errorLog (sv : Services) (s : State) (a b c : List Paiement)
    (ha : catchWith (sv.getPaiementsByStatus "EN_ATTENTE") (some []) = some a)
    (hb : catchWith (sv.getPaiementsByStatus "SUCCES") (some []) = some b)
    (hc : catchWith (sv.getPaiementsByStatus "ECHOUE") (some []) = some c) :
    (loadAllData sv s).errorLog
      = s.errorLog
        ++ (match sv.getAllProduits with
            | Outcome.rejected error => [("Erreur chargement produits:", error)]
            | Outcome.resolved _ => [])
        ++ (match sv.getAllUsers with
            | Outcome.rejected error => [("Erreur chargement utilisateurs:", error)]
            | Outcome.resolved _ => [])
        ++ (match sv.getAllOrders with
            | Outcome.rejected error => [("Erreur chargement commandes:", error)]
            | Outcome.resolved _ => []) := by
  rw [loadAllData_eq, loadPaiements_of_arrays sv _ a b c ha hb hc]
  unfold loadOrders loadUsers loadProduits
  cases sv.getAllProduits <;> cases sv.getAllUsers <;> cases sv.getAllOrders <;>
    simp [logError]

/-- C15 fails on the code: when the three status queries and the stats query all reject, while
the other fetches resolve, `loadAllData` leaves the error log as it was: the four failed calls
are replaced by their defaults without a log entry. -/
theorem C15_paiement_failures_not_logged :
    (∀ status, paiementsFailServices.getPaiementsByStatus status
        = Outcome.rejected "Network Error")
      ∧ paiementsFailServices.getStats = Outcome.rejected "Network Error"
      ∧ ({ } : State).errorLog = []
      ∧ (loadAllData paiementsFailServices { }).errorLog = []
      ∧ (loadAllData paiementsFailServices { }).paiements = []
      ∧ (loadAllData paiementsFailServices { }).paiementStats = none := by
  refine ⟨fun _ => rfl, rfl, rfl, ?_, ?_, ?_⟩
  · rw [loadAllData_errorLog paiementsFailServices { } [] [] [] rfl rfl rfl]
    rfl
  · rw [loadAllData_eq]
    rfl
  · rw [loadAllData_eq]
    rfl

/-- When each status query either resolves with an array or rejects, `loadPaiements` stores the
three results concatenated in the order EN_ATTENTE, SUCCES, ECHOUE, a rejected query counting
as the empty list, and stores the resolved value of `getStats`, or `null` when `getStats`
rejects. -/
theorem loadPaiements_stores_of_arrays (sv : Services) (s : State) (A S E : List Paiement)
    (hA : sv.getPaiementsByStatus "EN_ATTENTE" = Outcome.resolved (some A)
      ∨ ((∃ error, sv.getPaiementsByStatus "EN_ATTENTE" = Outcome.rejected error) ∧ A = []))
    (hS : sv.getPaiementsByStatus "SUCCES" = Outcome.resolved (some S)
      ∨ ((∃ error, sv.getPaiementsByStatus "SUCCES" = Outcome.rejected error) ∧ S = []))
    (hE : sv.getPaiementsByStatus "ECHOUE" = Outcome.resolved (some E)
      ∨ ((∃ error, sv.getPaiementsByStatus "ECHOUE" = Outcome.rejected error) ∧ E = [])) :
    (loadPaiements sv s).1.paiements = A ++ S ++ E
      ∧ (∀ stats, sv.getStats = Outcome.resolved stats →
          (loadPaiements sv s).1.paiementStats = stats)
      ∧ (∀ error, sv.getStats = Outcome.rejected error →
          (loadPaiements sv s).1.paiementStats = none) := by
  rw [loadPaiements_of_arrays sv s A S E (catchWith_of_result _ A hA)
    (catchWith_of_result _ S hS) (catchWith_of_result _ E hE)]
  refine ⟨rfl, fun stats h => ?_, fun error h => ?_⟩
  · simp [h, catchWith]
  · simp [h, catchWith]

/-- A rejected query does not discard the results of the two others. -/
theorem loadPaiements_stores_with_rejected_query :
    (loadPaiements succesFailServices staleUsersState).1.paiements
        = [{ id := some "EN_ATTENTE", status := some "EN_ATTENTE" }] ++ []
          ++ [{ id := some "ECHOUE", status := some "ECHOUE" }]
      ∧ (loadPaiements succesFailServices staleUsersState).1.paiementStats
        = some zeroPaiementStats :=
  ⟨(loadPaiements_stores_of_arrays succesFailServices staleUsersState
      [{ id := some "EN_ATTENTE", status := some "EN_ATTENTE" }] []
      [{ id := some "ECHOUE", status := some "ECHOUE" }]
      (Or.inl rfl) (Or.inr ⟨⟨"timeout", rfl⟩, rfl⟩) (Or.inl rfl)).1,
   (loadPaiements_stores_of_arrays succesFailServices staleUsersState
      [{ id := some "EN_ATTENTE", status := some "EN_ATTENTE" }] []
      [{ id := some "ECHOUE", status := some "ECHOUE" }]
      (Or.inl rfl) (Or.inr ⟨⟨"timeout", rfl⟩, rfl⟩) (Or.inl rfl)).2.1 _ rfl⟩

/-- C16 fails on the code: when the `SUCCES` query resolves with `null` while the two other
queries resolve with one payment each and `getStats` with a record, spreading `null` raises,
the outer `catch` only logs, and nothing is stored: the payments of an earlier load and the
earlier stats stay, and the results of the three other calls are discarded. -/
theorem C16_null_result_discards_others :
    (nullSuccesServices.getPaiementsByStatus "EN_ATTENTE"
          = Outcome.resolved (some [{ id := some "pay1", status := some "EN_ATTENTE" }])
      ∧ nullSuccesServices.getPaiementsByStatus "SUCCES" = Outcome.resolved none
      ∧ nullSuccesServices.getPaiementsByStatus "ECHOUE"
          = Outcome.resolved (some [{ id := some "pay3", status := some "ECHOUE" }])
      ∧ nullSuccesServices.getStats = Outcome.resolved (some freshPaiementStats))
    ∧ (stalePaiementsState.paiements = [{ id := some "old", status := some "EN_ATTENTE" }]
      ∧ stalePaiementsState.paiementStats = some zeroPaiementStats)
    ∧ ((loadPaiements nullSuccesServices stalePaiementsState).1.paiements
          = [{ id := some "old", status := some "EN_ATTENTE" }]
      ∧ (loadPaiements nullSuccesServices stalePaiementsState).1.paiements
          ≠ [{ id := some "pay1", status := some "EN_ATTENTE" }]
            ++ [] ++ [{ id := some "pay3", status := some "ECHOUE" }]
      ∧ (loadPaiements nullSuccesServices stalePaiementsState).1.paiementStats
          = some zeroPaiementStats
      ∧ (loadPaiements nullSuccesServices stalePaiementsState).1.paiementStats
          ≠ some freshPaiementStats
      ∧ (loadPaiements nullSuccesServices stalePaiementsState).1.errorLog
          = [("Erreur chargement paiements:", "TypeError")]) := by
  decide

/-! ### Mutation handlers -/

theorem loadProduits_orders (sv : Services) (s : State) :
    (loadProduits sv s).1.orders = s.orders := by
  unfold loadProduits; cases sv.getAllProduits <;> rfl

theorem loadProduits_paiements (sv : Services) (s : State) :
    (loadProduits sv s).1.paiements = s.paiements := by
  unfold loadProduits; cases sv.getAllProduits <;> rfl

theorem loadUsers_orders (sv : Services) (s : State) :
    (loadUsers sv s).1.orders = s.orders := by
  unfold loadUsers; cases sv.getAllUsers <;> rfl

theorem loadUsers_paiements (sv : Services) (s : State) :
    (loadUsers sv s).1.paiements = s.paiements := by
  unfold loadUsers; cases sv.getAllUsers <;> rfl

theorem loadOrders_paiements (sv : Services) (s : State) :
    (loadOrders sv s).1.paiements = s.paiements := by
  unfold loadOrders; cases sv.getAllOrders <;> rfl

/-- C17: when the service call of a mutation handler resolves, the calls issued are that call
followed by the fetches of the entity's own loader, and the three other snapshot collections
are as before. -/
theorem C17_reload_own_collection_only (v : Option Unit) (sv : Services) (id : Option String)
    (value : String) (dateNow : Int) (s : State) :
    ((handleUpdateProduitStatus (Outcome.resolved v) sv id value s).calls
          = [Call.updateStatus id value, Call.getAllProduits]
      ∧ (handleUpdateProduitStatus (Outcome.resolved v) sv id value s).state.users = s.users
      ∧ (handleUpdateProduitStatus (Outcome.resolved v) sv id value s).state.orders = s.orders
      ∧ (handleUpdateProduitStatus (Outcome.resolved v) sv id value s).state.paiements
          = s.paiements)
    ∧ ((handleDeleteProduit true (Outcome.resolved v) sv id s).calls
          = [Call.deleteProduit id, Call.getAllProduits]
      ∧ (handleDeleteProduit true (Outcome.resolved v) sv id s).state.users = s.users
      ∧ (handleDeleteProduit true (Outcome.resolved v) sv id s).state.orders = s.orders
      ∧ (handleDeleteProduit true (Outcome.resolved v) sv id s).state.paiements = s.paiements)
    ∧ ((handleUpdateOrderStatus (Outcome.resolved v) sv id value s).calls
          = [Call.updateOrderStatus id value, Call.getAllOrders]
      ∧ (handleUpdateOrderStatus (Outcome.resolved v) sv id value s).state.produits = s.produits
      ∧ (handleUpdateOrderStatus (Outcome.resolved v) sv id value s).state.users = s.users
      ∧ (handleUpdateOrderStatus (Outcome.resolved v) sv id value s).state.paiements
          = s.paiements)
    ∧ ((handleUpdatePaiementStatus (Outcome.resolved v) sv dateNow id value s).calls
          = (paiementStatusCall dateNow id value).toList
            ++ [Call.getPaiementsByStatus "EN_ATTENTE", Call.getPaiementsByStatus "SUCCES",
                Call.getPaiementsByStatus "ECHOUE", Call.getStats]
      ∧ (handleUpdatePaiementStatus (Outcome.resolved v) sv dateNow id value s).state.produits
          = s.produits
      ∧ (handleUpdatePaiementStatus (Outcome.resolved v) sv dateNow id value s).state.users
          = s.users
      ∧ (handleUpdatePaiementStatus (Outcome.resolved v) sv dateNow id value s).state.orders
          = s.orders)
    ∧ ((handleUpdateUserRole (Outcome.resolved v) sv id value s).calls
          = [Call.updateUser id value, Call.getAllUsers]
      ∧ (handleUpdateUserRole (Outcome.resolved v) sv id value s).state.produits = s.produits
      ∧ (handleUpdateUserRole (Outcome.resolved v) sv id value s).state.orders = s.orders
      ∧ (handleUpdateUserRole (Outcome.resolved v) sv id value s).state.paiements = s.paiements)
    ∧ ((handleDeleteUser true (Outcome.resolved v) sv id s).calls
          = [Call.deleteUser id, Call.getAllUsers]
      ∧ (handleDeleteUser true (Outcome.resolved v) sv id s).state.produits = s.produits
      ∧ (handleDeleteUser true (Outcome.resolved v) sv id s).state.orders = s.orders
      ∧ (handleDeleteUser true (Outcome.resolved v) sv id s).state.paiements = s.paiements) := by
  refine ⟨⟨rfl, ?_, ?_, ?_⟩, ⟨rfl, ?_, ?_, ?_⟩, ⟨rfl, ?_, ?_, ?_⟩, ⟨?_, ?_, ?_, ?_⟩,
    ⟨rfl, ?_, ?_, ?_⟩, ⟨rfl, ?_, ?_, ?_⟩⟩
  · exact loadProduits_users sv _
  · exact loadProduits_orders sv _
  · exact loadProduits_paiements sv _
  · exact loadProduits_users sv _
  · exact loadProduits_orders sv _
  · exact loadProduits_paiements sv _
  · exact loadOrders_produits sv _
  · exact loadOrders_users sv _
  · exact loadOrders_paiements sv _
  · unfold handleUpdatePaiementStatus
    cases paiementStatusCall dateNow id value <;> rfl
  · unfold handleUpdatePaiementStatus
    cases paiementStatusCall dateNow id value <;> exact loadPaiements_produits sv _
  · unfold handleUpdatePaiementStatus
    cases paiementStatusCall dateNow id value <;> exact loadPaiements_users sv _
  · unfold handleUpdatePaiementStatus
    cases paiementStatusCall dateNow id value <;> exact loadPaiements_orders sv _
  · exact loadUsers_produits sv _
  · exact loadUsers_orders sv _
  · exact loadUsers_paiements sv _
  · exact loadUsers_produits sv _
  · exact loadUsers_orders sv _
  · exact loadUsers_paiements sv _

/-- C18: when the service call of a mutation handler rejects, the four snapshot collections
and `paiementStats` are as before, the rejected call is the only call issued (no reload), the
handler's promise does not reject, and the notification slot holds the failure message of the
action. -/
theorem C18_failed_mutation_keeps_data (error : String) (sv : Services) (id : Option String)
    (value : String) (dateNow : Int) (s : State) :
    (((handleUpdateProduitStatus (Outcome.rejected error) sv id value s).state.produits = s.produits ∧ (handleUpdateProduitStatus (Outcome.rejected error) sv id value s).state.users = s.users
        ∧ (handleUpdateProduitStatus (Outcome.rejected error) sv id value s).state.orders = s.orders ∧ (handleUpdateProduitStatus (Outcome.rejected error) sv id value s).state.paiements = s.paiements
        ∧ (handleUpdateProduitStatus (Outcome.rejected error) sv id value s).state.paiementStats = s.paiementStats)
      ∧ (handleUpdateProduitStatus (Outcome.rejected error) sv id value s).calls
          = [Call.updateStatus id value]
      ∧ (handleUpdateProduitStatus (Outcome.rejected error) sv id value s).rejection = none
      ∧ (handleUpdateProduitStatus (Outcome.rejected error) sv id value s).state.notification
          = "❌ Erreur lors de la mise à jour")
    ∧ (((handleDeleteProduit true (Outcome.rejected error) sv id s).state.produits = s.produits ∧ (handleDeleteProduit true (Outcome.rejected error) sv id s).state.users = s.users
        ∧ (handleDeleteProduit true (Outcome.rejected error) sv id s).state.orders = s.orders ∧ (handleDeleteProduit true (Outcome.rejected error) sv id s).state.paiements = s.paiements
        ∧ (handleDeleteProduit true (Outcome.rejected error) sv id s).state.paiementStats = s.paiementStats)
      ∧ (handleDeleteProduit true (Outcome.rejected error) sv id s).calls
          = [Call.deleteProduit id]
      ∧ (handleDeleteProduit true (Outcome.rejected error) sv id s).rejection = none
      ∧ (handleDeleteProduit true (Outcome.rejected error) sv id s).state.notification
          = "❌ Erreur lors de la suppression")
    ∧ (((handleUpdateOrderStatus (Outcome.rejected error) sv id value s).state.produits = s.produits ∧ (handleUpdateOrderStatus (Outcome.rejected error) sv id value s).state.users = s.users
        ∧ (handleUpdateOrderStatus (Outcome.rejected error) sv id value s).state.orders = s.orders ∧ (handleUpdateOrderStatus (Outcome.rejected error) sv id value s).state.paiements = s.paiements
        ∧ (handleUpdateOrderStatus (Outcome.rejected error) sv id value s).state.paiementStats = s.paiementStats)
      ∧ (handleUpdateOrderStatus (Outcome.rejected error) sv id value s).calls
          = [Call.updateOrderStatus id value]
      ∧ (handleUpdateOrderStatus (Outcome.rejected error) sv id value s).rejection = none
      ∧ (handleUpdateOrderStatus (Outcome.rejected error) sv id value s).state.notification
          = "❌ Erreur lors de la mise à jour")
    ∧ (((handleUpdatePaiementStatus (Outcome.rejected error) sv dateNow id "SUCCES" s).state.produits = s.produits ∧ (handleUpdatePaiementStatus (Outcome.rejected error) sv dateNow id "SUCCES" s).state.users = s.users
        ∧ (handleUpdatePaiementStatus (Outcome.rejected error) sv dateNow id "SUCCES" s).state.orders = s.orders ∧ (handleUpdatePaiementStatus (Outcome.rejected error) sv dateNow id "SUCCES" s).state.paiements = s.paiements
        ∧ (handleUpdatePaiementStatus (Outcome.rejected error) sv dateNow id "SUCCES" s).state.paiementStats = s.paiementStats)
      ∧ (handleUpdatePaiementStatus (Outcome.rejected error) sv dateNow id "SUCCES" s).calls
          = [Call.confirmPaiement id ("ADMIN-" ++ toString dateNow)]
      ∧ (handleUpdatePaiementStatus (Outcome.rejected error) sv dateNow id "SUCCES" s).rejection = none
      ∧ (handleUpdatePaiementStatus (Outcome.rejected error) sv dateNow id "SUCCES" s).state.notification
          = "❌ Erreur lors de la mise à jour du paiement")
    ∧ (((handleUpdatePaiementStatus (Outcome.rejected error) sv dateNow id "ECHOUE" s).state.produits = s.produits ∧ (handleUpdatePaiementStatus (Outcome.rejected error) sv dateNow id "ECHOUE" s).state.users = s.users
        ∧ (handleUpdatePaiementStatus (Outcome.rejected error) sv dateNow id "ECHOUE" s).state.orders = s.orders ∧ (handleUpdatePaiementStatus (Outcome.rejected error) sv dateNow id "ECHOUE" s).state.paiements = s.paiements
        ∧ (handleUpdatePaiementStatus (Outcome.rejected error) sv dateNow id "ECHOUE" s).state.paiementStats = s.paiementStats)
      ∧ (handleUpdatePaiementStatus (Outcome.rejected error) sv dateNow id "ECHOUE" s).calls
          = [Call.failPaiement id "Rejeté par administrateur"]
      ∧ (handleUpdatePaiementStatus (Outcome.rejected error) sv dateNow id "ECHOUE" s).rejection = none
      ∧ (handleUpdatePaiementStatus (Outcome.rejected error) sv dateNow id "ECHOUE" s).state.notification
          = "❌ Erreur lors de la mise à jour du paiement")
    ∧ (((handleUpdateUserRole (Outcome.rejected error) sv id value s).state.produits = s.produits ∧ (handleUpdateUserRole (Outcome.rejected error) sv id value s).state.users = s.users
        ∧ (handleUpdateUserRole (Outcome.rejected error) sv id value s).state.orders = s.orders ∧ (handleUpdateUserRole (Outcome.rejected error) sv id value s).state.paiements = s.paiements
        ∧ (handleUpdateUserRole (Outcome.rejected error) sv id value s).state.paiementStats = s.paiementStats)
      ∧ (handleUpdateUserRole (Outcome.rejected error) sv id value s).calls
          = [Call.updateUser id value]
      ∧ (handleUpdateUserRole (Outcome.rejected error) sv id value s).rejection = none
      ∧ (handleUpdateUserRole (Outcome.rejected error) sv id value s).state.notification
          = "❌ Erreur lors de la mise à jour du rôle")
    ∧ (((handleDeleteUser true (Outcome.rejected error) sv id s).state.produits = s.produits ∧ (handleDeleteUser true (Outcome.rejected error) sv id s).state.users = s.users
        ∧ (handleDeleteUser true (Outcome.rejected error) sv id s).state.orders = s.orders ∧ (handleDeleteUser true (Outcome.rejected error) sv id s).state.paiements = s.paiements
        ∧ (handleDeleteUser true (Outcome.rejected error) sv id s).state.paiementStats = s.paiementStats)
      ∧ (handleDeleteUser true (Outcome.rejected error) sv id s).calls
          = [Call.deleteUser id]
      ∧ (handleDeleteUser true (Outcome.rejected error) sv id s).rejection = none
      ∧ (handleDeleteUser true (Outcome.rejected error) sv id s).state.notification
          = "❌ Erreur lors de la suppression") := by
  refine ⟨?_, ?_, ?_, ?_, ?_, ?_, ?_⟩ <;> exact ⟨⟨rfl, rfl, rfl, rfl, rfl⟩, rfl, rfl, rfl⟩

/-- C19: `handleDeleteUser` and `handleDeleteProduit` do nothing when the operator declines the
prompt: no call, no reload, no notification, the state as it was; when the operator accepts,
the first call issued is the delete call with the given id, and it is followed at most by the
fetch of the reload. -/
theorem C19_delete_needs_confirmation (result : Outcome Unit) (sv : Services)
    (id : Option String) (s : State) :
    (handleDeleteUser false result sv id s = { state := s, calls := [], rejection := none }
      ∧ handleDeleteProduit false result sv id s
          = { state := s, calls := [], rejection := none })
    ∧ (((handleDeleteUser true result sv id s).calls = [Call.deleteUser id]
          ∨ (handleDeleteUser true result sv id s).calls
              = [Call.deleteUser id, Call.getAllUsers])
        ∧ (handleDeleteUser true result sv id s).calls.count (Call.deleteUser id) = 1
        ∧ ∀ other, Call.deleteUser other ∈ (handleDeleteUser true result sv id s).calls →
            other = id)
    ∧ (((handleDeleteProduit true result sv id s).calls = [Call.deleteProduit id]
          ∨ (handleDeleteProduit true result sv id s).calls
              = [Call.deleteProduit id, Call.getAllProduits])
        ∧ (handleDeleteProduit true result sv id s).calls.count (Call.deleteProduit id) = 1
        ∧ ∀ other, Call.deleteProduit other ∈ (handleDeleteProduit true result sv id s).calls →
            other = id) := by
  refine ⟨⟨rfl, rfl⟩, ?_, ?_⟩
  · cases result with
    | rejected error => simp [handleDeleteUser]
    | resolved v => simp [handleDeleteUser, loadUsersCalls]
  · cases result with
    | rejected error => simp [handleDeleteProduit]
    | resolved v => simp [handleDeleteProduit, loadProduitsCalls]

theorem C19_delete_needs_confirmation_witness :
    handleDeleteUser false (Outcome.rejected "500") usersFailServices (some "u1") staleUsersState
        = { state := staleUsersState, calls := [], rejection := none }
      ∧ (handleDeleteUser true (Outcome.resolved none) usersFailServices (some "u1")
          staleUsersState).calls.count (Call.deleteUser (some "u1")) = 1 :=
  ⟨(C19_delete_needs_confirmation (Outcome.rejected "500") usersFailServices (some "u1")
      staleUsersState).1.1,
   (C19_delete_needs_confirmation (Outcome.resolved none) usersFailServices (some "u1")
      staleUsersState).2.1.2.1⟩

/-! ### Users table -/

/-- When the profile carries a uid, the controls of a row are disabled exactly on the row of
the authenticated account. -/
theorem controlsDisabled_of_uid (profile : Profile) (user : User)
    (h1 : profile.uid ≠ JsValue.undefined) (h2 : profile.uid ≠ JsValue.null) :
    controlsDisabled (some profile) user = isCurrentAccount (some profile) user := by
  cases hp : profile.uid with
  | undefined => exact absurd hp h1
  | null => exact absurd hp h2
  | number n => simp [controlsDisabled, isCurrentAccount, profileUid, hp]
  | string str => simp [controlsDisabled, isCurrentAccount, profileUid, hp]

/-- The controls of a row are disabled when the row is the authenticated account, and also
when neither the row nor the profile yields a uid of the same kind. -/
theorem controlsDisabled_iff (userProfile : Option Profile) (user : User) :
    controlsDisabled userProfile user = true
      ↔ isCurrentAccount userProfile user = true
        ∨ (user.uid = JsValue.undefined ∧ profileUid userProfile = JsValue.undefined)
        ∨ (user.uid = JsValue.null ∧ profileUid userProfile = JsValue.null) := by
  cases userProfile with
  | none =>
    simp [controlsDisabled, isCurrentAccount, profileUid]
  | some profile =>
    cases hp : profile.uid with
    | undefined => simp [controlsDisabled, isCurrentAccount, profileUid, hp]
    | null => simp [controlsDisabled, isCurrentAccount, profileUid, hp]
    | number n => simp [controlsDisabled, isCurrentAccount, profileUid, hp]
    | string str => simp [controlsDisabled, isCurrentAccount, profileUid, hp]

/-- C20 fails on the code: while no profile is loaded, `userProfile?.uid` is `undefined`, and a
row that has an `id` but no `uid` compares equal to it, so its role selector and delete button
are disabled although the row is not the authenticated account. -/
theorem C20_row_without_uid_disabled :
    rowWithoutUid.uid = JsValue.undefined
      ∧ controlsDisabled none rowWithoutUid = true
      ∧ isCurrentAccount none rowWithoutUid = false
      ∧ controlsDisabled (some { }) rowWithoutUid = true
      ∧ isCurrentAccount (some { }) rowWithoutUid = false := by
  decide

/-! ### Sub-counts of the statistics -/

theorem filter3_length_add {α : Type} (p q r : α → Bool) (l : List α)
    (hpq : ∀ x, p x = true → q x = false) (hpr : ∀ x, p x = true → r x = false)
    (hqr : ∀ x, q x = true → r x = false) :
    (l.filter p).length + (l.filter q).length + (l.filter r).length
        + (l.filter (fun x => !(p x || q x || r x))).length
      = l.length := by
  induction l with
  | nil => rfl
  | cons x t ih =>
    have h1 := hpq x
    have h2 := hpr x
    have h3 := hqr x
    simp only [List.filter_cons, List.length_cons]
    cases hp : p x <;> cases hq : q x <;> cases hr : r x <;>
      simp_all <;> omega

theorem filter_rest_eq_nil_iff {α : Type} (p q r : α → Bool) (l : List α) :
    (l.filter (fun x => !(p x || q x || r x))).length = 0
      ↔ ∀ x ∈ l, p x = true ∨ q x = true ∨ r x = true := by
  rw [List.length_eq_zero, List.filter_eq_nil_iff]
  constructor
  · intro h x hx
    have := h x hx
    cases hp : p x <;> cases hq : q x <;> cases hr : r x <;> simp_all
  · intro h x hx
    rcases h x hx with h | h | h <;> simp [h]

/-- Three counts over pairwise exclusive conditions add up to at most the length, with
equality exactly when every element meets one of the conditions. -/
theorem filter3_le_and_eq_iff {α : Type} (p q r : α → Bool) (l : List α)
    (hpq : ∀ x, p x = true → q x = false) (hpr : ∀ x, p x = true → r x = false)
    (hqr : ∀ x, q x = true → r x = false) :
    (l.filter p).length + (l.filter q).length + (l.filter r).length ≤ l.length
      ∧ ((l.filter p).length + (l.filter q).length + (l.filter r).length = l.length
          ↔ ∀ x ∈ l, p x = true ∨ q x = true ∨ r x = true) := by
  have hsum := filter3_length_add p q r l hpq hpr hqr
  refine ⟨by omega, ?_⟩
  rw [← filter_rest_eq_nil_iff]
  omega

theorem some_beq_exclusive (field : Option String) (a b : String) (hab : a ≠ b)
    (h : (field == some a) = true) : (field == some b) = false := by
  rw [beq_iff_eq] at h
  rw [h]
  simpa using hab

/-- C25: in each group of `computedStats` the three sub-counts add up to at most the total,
with equality exactly when every element has one of the three counted statuses; a `DESACTIVE`
product, an `EN_COURS` order or a user without role makes the sum strictly smaller. -/
theorem C25_subcounts_at_most_total (produits : List Produit) (users : List User)
    (orders : List Order) (ps : Option PaiementStats) :
    ((computedStats produits users orders ps).produits.disponibles
          + (computedStats produits users orders ps).produits.rupture
          + (computedStats produits users orders ps).produits.promo
        ≤ (computedStats produits users orders ps).produits.total
      ∧ ((computedStats produits users orders ps).produits.disponibles
          + (computedStats produits users orders ps).produits.rupture
          + (computedStats produits users orders ps).produits.promo
        = (computedStats produits users orders ps).produits.total
        ↔ ∀ p ∈ produits, p.status = some "DISPONIBLE" ∨ p.status = some "RUPTURE_STOCK"
            ∨ p.status = some "EN_PROMOTION"))
    ∧ ((computedStats produits users orders ps).users.clients
          + (computedStats produits users orders ps).users.vendeurs
          + (computedStats produits users orders ps).users.admins
        ≤ (computedStats produits users orders ps).users.total
      ∧ ((computedStats produits users orders ps).users.clients
          + (computedStats produits users orders ps).users.vendeurs
          + (computedStats produits users orders ps).users.admins
        = (computedStats produits users orders ps).users.total
        ↔ ∀ u ∈ users, u.role = some "CLIENT" ∨ u.role = some "VENDEUR"
            ∨ u.role = some "ADMIN"))
    ∧ ((computedStats produits users orders ps).orders.enAttente
          + (computedStats produits users orders ps).orders.livrees
          + (computedStats produits users orders ps).orders.annulees
        ≤ (computedStats produits users orders ps).orders.total
      ∧ ((computedStats produits users orders ps).orders.enAttente
          + (computedStats produits users orders ps).orders.livrees
          + (computedStats produits users orders ps).orders.annulees
        = (computedStats produits users orders ps).orders.total
        ↔ ∀ o ∈ orders, o.orderStatus = some "EN_ATTENTE" ∨ o.orderStatus = some "LIVRE"
            ∨ o.orderStatus = some "ANNULE"))
    ∧ ((computedStats [{ status := some "DESACTIVE" }, { status := some "DISPONIBLE" }]
          [{ role := none }, { role := some "ADMIN" }]
          [{ orderStatus := some "EN_COURS" }, { orderStatus := some "LIVRE" }] none).produits
        = { total := 2, disponibles := 1, rupture := 0, promo := 0 }
      ∧ (computedStats [{ status := some "DESACTIVE" }, { status := some "DISPONIBLE" }]
          [{ role := none }, { role := some "ADMIN" }]
          [{ orderStatus := some "EN_COURS" }, { orderStatus := some "LIVRE" }] none).users
        = { total := 2, clients := 0, vendeurs := 0, admins := 1 }
      ∧ (computedStats [{ status := some "DESACTIVE" }, { status := some "DISPONIBLE" }]
          [{ role := none }, { role := some "ADMIN" }]
          [{ orderStatus := some "EN_COURS" }, { orderStatus := some "LIVRE" }] none).orders
        = { total := 2, enAttente := 0, livrees := 1, annulees := 0,
            revenus := JsNumber.fin 0 }) := by
  refine ⟨?_, ?_, ?_, ⟨by decide, by decide, ?_⟩⟩
  · have h := filter3_le_and_eq_iff (fun p : Produit => p.status == some "DISPONIBLE")
      (fun p => p.status == some "RUPTURE_STOCK") (fun p => p.status == some "EN_PROMOTION")
      produits (fun p => some_beq_exclusive p.status _ _ (by decide))
      (fun p => some_beq_exclusive p.status _ _ (by decide))
      (fun p => some_beq_exclusive p.status _ _ (by decide))
    simpa only [beq_iff_eq] using h
  · have h := filter3_le_and_eq_iff (fun u : User => u.role == some "CLIENT")
      (fun u => u.role == some "VENDEUR") (fun u => u.role == some "ADMIN")
      users (fun u => some_beq_exclusive u.role _ _ (by decide))
      (fun u => some_beq_exclusive u.role _ _ (by decide))
      (fun u => some_beq_exclusive u.role _ _ (by decide))
    simpa only [beq_iff_eq] using h
  · have h := filter3_le_and_eq_iff (fun o : Order => o.orderStatus == some "EN_ATTENTE")
      (fun o => o.orderStatus == some "LIVRE") (fun o => o.orderStatus == some "ANNULE")
      orders (fun o => some_beq_exclusive o.orderStatus _ _ (by decide))
      (fun o => some_beq_exclusive o.orderStatus _ _ (by decide))
      (fun o => some_beq_exclusive o.orderStatus _ _ (by decide))
    simpa only [beq_iff_eq] using h
  · decide

/-! ### Tab buttons -/

/-- C24: a click on a tab button sets `activeTab` to the clicked tab and empties `searchQuery`
and `statusFilter`; `dateFilter` and the four snapshot collections stay as they were, so the
payments (and orders) shown after the click are the snapshot restricted by the date bucket
chosen before; the products and users shown do not depend on `dateFilter`. -/
theorem C24_tab_click (rt : Runtime) (now filterDate : Int) (tab : String) (s : State) :
    ((clickTab tab s).activeTab = tab
      ∧ (clickTab tab s).searchQuery = ""
      ∧ (clickTab tab s).statusFilter = ""
      ∧ (clickTab tab s).dateFilter = s.dateFilter
      ∧ (clickTab tab s).produits = s.produits
      ∧ (clickTab tab s).users = s.users
      ∧ (clickTab tab s).orders = s.orders
      ∧ (clickTab tab s).paiements = s.paiements)
    ∧ visiblePaiements rt now filterDate (clickTab tab s)
        = filterByDate rt s.dateFilter now filterDate Paiement.createdAt s.paiements
    ∧ visibleOrders rt now filterDate (clickTab tab s)
        = filterByDate rt s.dateFilter now filterDate Order.createdAt s.orders
    ∧ (∀ dateFilter : String,
        visibleProduits rt { s with dateFilter := dateFilter } = visibleProduits rt s
          ∧ visibleUsers rt { s with dateFilter := dateFilter } = visibleUsers rt s) := by
  refine ⟨⟨rfl, rfl, rfl, rfl, rfl, rfl, rfl, rfl⟩, ?_, ?_, fun _ => ⟨rfl, rfl⟩⟩
  · simp [visiblePaiements, clickTab, filteredPaiements, keepPaiement]
  · simp [visibleOrders, clickTab, filteredOrders, keepOrder]

/-! ### Labels of values outside the status tables -/

theorem labelOf_of_not_key (table : List (String × StatusInfo)) (value : String)
    (h : table.lookup value = none) : labelOf table (some value) = none := by
  simp [labelOf, h]

/-- Where the code writes `?.label || field`, a value outside the table is shown as it is. -/
theorem labelOrRaw_of_not_key (table : List (String × StatusInfo)) (value : String)
    (h : table.lookup value = none) : labelOrRaw table (some value) = some value := by
  simp [labelOrRaw, labelOf, h]

/-- C21 fails on the code: for statuses and a method that are not keys of the tables, the
orders table and the payments table show the raw value, but the overview list, the order modal
and the payment modal, which have no `|| field`, show no label at all. -/
theorem C21_unknown_status_label_missing :
    (ORDER_STATUS.lookup "RETOURNE" = none ∧ PAIEMENT_STATUS.lookup "REMBOURSE" = none
      ∧ METHODES_PAIEMENT.lookup "CRYPTO" = none)
    ∧ (ordersTablePaiementStatusLabel orderUnknownStatus = some "REMBOURSE"
      ∧ paiementsTableMethodeLabel paiementUnknownStatus = some "CRYPTO"
      ∧ paiementsTableStatusLabel paiementUnknownStatus = some "REMBOURSE")
    ∧ (overviewOrderStatusLabel orderUnknownStatus = none
      ∧ orderModalOrderStatusLabel orderUnknownStatus = none
      ∧ orderModalPaiementStatusLabel orderUnknownStatus = none
      ∧ paiementModalMethodeLabel paiementUnknownStatus = none
      ∧ paiementModalStatusLabel paiementUnknownStatus = none) := by
  decide

/-! ### Payment status changes -/

/-- C22 fails as stated: for `newStatus = 'EN_ATTENTE'` the handler makes no service call, yet
it shows the success notification and reloads the payments. -/
theorem C22_other_status_notifies_without_call :
    paiementStatusCall 1710504000000 (some "pay1") "EN_ATTENTE" = none
      ∧ (handleUpdatePaiementStatus (Outcome.resolved none) usersFailServices 1710504000000
          (some "pay1") "EN_ATTENTE" { }).calls
        = [Call.getPaiementsByStatus "EN_ATTENTE", Call.getPaiementsByStatus "SUCCES",
            Call.getPaiementsByStatus "ECHOUE", Call.getStats]
      ∧ (handleUpdatePaiementStatus (Outcome.resolved none) usersFailServices 1710504000000
          (some "pay1") "EN_ATTENTE" { }).state.notification
        = "✅ Statut de paiement mis à jour!" := by
  decide

/-- C22 (amended): for `'SUCCES'` the handler makes one `confirmPaiement` call with the
reference `'ADMIN-'` followed by the timestamp, for `'ECHOUE'` one `failPaiement` call with the
fixed reason; for these two values the success notification and the reload of the payments
follow the call when it resolved, and when it rejected there is no reload and the failure
notification is shown; for any other value no service call is made. -/
theorem C22_paiement_status_delegation (sv : Services) (dateNow : Int) (id : Option String)
    (s : State) :
    (∀ v, (handleUpdatePaiementStatus (Outcome.resolved v) sv dateNow id "SUCCES" s).calls
          = [Call.confirmPaiement id ("ADMIN-" ++ toString dateNow),
              Call.getPaiementsByStatus "EN_ATTENTE", Call.getPaiementsByStatus "SUCCES",
              Call.getPaiementsByStatus "ECHOUE", Call.getStats]
        ∧ (handleUpdatePaiementStatus (Outcome.resolved v) sv dateNow id "SUCCES" s).state
            = (loadPaiements sv (showNotification "✅ Statut de paiement mis à jour!" s)).1)
    ∧ (∀ error, (handleUpdatePaiementStatus (Outcome.rejected error) sv dateNow id "SUCCES" s).calls
          = [Call.confirmPaiement id ("ADMIN-" ++ toString dateNow)]
        ∧ (handleUpdatePaiementStatus (Outcome.rejected error) sv dateNow id "SUCCES"
            s).state.notification = "❌ Erreur lors de la mise à jour du paiement"
        ∧ (handleUpdatePaiementStatus (Outcome.rejected error) sv dateNow id "SUCCES"
            s).state.paiements = s.paiements)
    ∧ (∀ v, (handleUpdatePaiementStatus (Outcome.resolved v) sv dateNow id "ECHOUE" s).calls
          = [Call.failPaiement id "Rejeté par administrateur",
              Call.getPaiementsByStatus "EN_ATTENTE", Call.getPaiementsByStatus "SUCCES",
              Call.getPaiementsByStatus "ECHOUE", Call.getStats]
        ∧ (handleUpdatePaiementStatus (Outcome.resolved v) sv dateNow id "ECHOUE" s).state
            = (loadPaiements sv (showNotification "✅ Statut de paiement mis à jour!" s)).1)
    ∧ (∀ error, (handleUpdatePaiementStatus (Outcome.rejected error) sv dateNow id "ECHOUE" s).calls
          = [Call.failPaiement id "Rejeté par administrateur"]
        ∧ (handleUpdatePaiementStatus (Outcome.rejected error) sv dateNow id "ECHOUE"
            s).state.notification = "❌ Erreur lors de la mise à jour du paiement"
        ∧ (handleUpdatePaiementStatus (Outcome.rejected error) sv dateNow id "ECHOUE"
            s).state.paiements = s.paiements)
    ∧ (∀ newStatus, newStatus ≠ "SUCCES" → newStatus ≠ "ECHOUE" →
        paiementStatusCall dateNow id newStatus = none
        ∧ ∀ result c,
            c ∈ (handleUpdatePaiementStatus result sv dateNow id newStatus s).calls →
              c ∈ [Call.getPaiementsByStatus "EN_ATTENTE", Call.getPaiementsByStatus "SUCCES",
                Call.getPaiementsByStatus "ECHOUE", Call.getStats]) := by
  refine ⟨fun v => ⟨rfl, rfl⟩, fun error => ⟨rfl, rfl, rfl⟩, fun v => ⟨rfl, rfl⟩,
    fun error => ⟨rfl, rfl, rfl⟩, fun newStatus h1 h2 => ?_⟩
  have hnone : paiementStatusCall dateNow id newStatus = none := by
    simp [paiementStatusCall, h1, h2]
  refine ⟨hnone, fun result c hc => ?_⟩
  unfold handleUpdatePaiementStatus at hc
  rw [hnone] at hc
  simpa [loadPaiementsCalls] using hc

theorem C22_paiement_status_delegation_witness :
    (handleUpdatePaiementStatus (Outcome.resolved none) usersFailServices 1710504000000
        (some "pay1") "SUCCES" { }).calls
      = [Call.confirmPaiement (some "pay1") "ADMIN-1710504000000",
          Call.getPaiementsByStatus "EN_ATTENTE", Call.getPaiementsByStatus "SUCCES",
          Call.getPaiementsByStatus "ECHOUE", Call.getStats]
      ∧ paiementStatusCall 1710504000000 (some "pay1") "LIVRE" = none :=
  ⟨((C22_paiement_status_delegation usersFailServices 1710504000000 (some "pay1") { }).1
      none).1.trans (by decide),
   ((C22_paiement_status_delegation usersFailServices 1710504000000 (some "pay1") { }).2.2.2.2
      "LIVRE" (by decide) (by decide)).1⟩

/-! ### Notification slot -/

/-- While no callback is due, the slot keeps its message. -/
theorem elapse_notification_of_not_due (t : Nat) (s : State)
    (h : ∀ due ∈ s.timers, t < due) : (elapse t s).notification = s.notification := by
  have hany : s.timers.any (fun due => decide (due ≤ t)) = false := by
    rw [List.any_eq_false]
    intro due hdue
    have := h due hdue
    simp only [decide_eq_true_eq]
    omega
  simp [elapse, hany]

/-- Once a callback is due, the slot is empty, whichever message it holds. -/
theorem elapse_notification_of_due (t : Nat) (s : State) (due : Nat)
    (hmem : due ∈ s.timers) (hdue : due ≤ t) : (elapse t s).notification = "" := by
  have hany : s.timers.any (fun d => decide (d ≤ t)) = true := by
    rw [List.any_eq_true]
    exact ⟨due, hmem, by simpa using hdue⟩
  simp [elapse, hany]

/-- C23 fails on the code: `m1` is shown at t = 0 and `m2` at t = 3000; `m2` replaces `m1` at
once and is displayed at t = 3999, but the callback scheduled with `m1`, never cancelled,
empties the slot at t = 4000, 1000 ms after `m2` was shown and not at t = 7000. -/
theorem C23_stale_timer_clears_newer_message :
    (showNotification "m1" { }).notification = "m1"
      ∧ (elapse 3000 (showNotification "m1" { })).notification = "m1"
      ∧ (showNotification "m2" (elapse 3000 (showNotification "m1" { }))).notification = "m2"
      ∧ (showNotification "m2" (elapse 3000 (showNotification "m1" { }))).timers = [4000, 7000]
      ∧ (elapse 3999 (showNotification "m2" (elapse 3000 (showNotification "m1" { })))).notification
          = "m2"
      ∧ (elapse 4000 (showNotification "m2" (elapse 3000 (showNotification "m1" { })))).notification
          = "" := by
  decide

end DashboardAdmin
